import Mathlib

/-!
Verification development for the cuppa-tools code-generation CLI.

The TypeScript parser and generator classes of the repository are embedded
shallowly as Lean definitions: JS objects become structures, `Record`s become
association lists in insertion order, JS `undefined`/missing fields become
`Option`, thrown errors become `Except`, and JS numbers become `ℚ` (the
numeric values handled here are exact decimals; IEEE rounding and the
non-finite values `NaN`/`Infinity` of `parseFloat` are represented by
`Option ℚ`, with `none` standing for `NaN`).
-/

namespace Cuppa

/-- Dynamic JavaScript value, for loosely typed source fields such as
`defaultValue: any`. -/
inductive JSValue where
  | str (s : String)
  | bool (b : Bool)
  | num (q : ℚ)
  deriving DecidableEq

/-- JS truthiness of a `JSValue` (`'' `, `false`, `0` are falsy). -/
def JSValue.truthy : JSValue → Bool
  | .str s => s ≠ ""
  | .bool b => b
  | .num q => q ≠ 0

/-- Rendering used for template interpolation of a JS number. Integral values
print as integers, as in JS; non-integral rendering is a fixed deterministic
stand-in (exact IEEE digit strings are outside the model, and no claim
depends on them). -/
def jsNumToString (q : ℚ) : String :=
  if q.den = 1 then toString q.num else toString q.num ++ "/" ++ toString q.den

/-- Template rendering `String(value)` of a dynamic value. -/
def JSValue.render : JSValue → String
  | .str s => s
  | .bool b => if b then "true" else "false"
  | .num q => jsNumToString q

/-- JS `x || dflt` on an optional string field: `undefined` and `""` both
fall through to the default. -/
def jsStrOr (v : Option String) (d : String) : String :=
  match v with
  | some s => if s = "" then d else s
  | none => d

/-- Embeds `Array.prototype.join('\n')`, the line-assembly step shared by all
generators. -/
def joinNL : List String → String
  | [] => ""
  | [a] => a
  | a :: b :: r => a ++ "\n" ++ joinNL (b :: r)

/-- Embeds the `capitalize` helper shared by the parser and generator classes:
`str.charAt(0).toUpperCase() + str.slice(1)`. -/
def jsCapitalize (s : String) : String :=
  match s.data with
  | [] => ""
  | c :: cs => String.mk (c.toUpper :: cs)

/-- Embeds `String.prototype.toLowerCase` (character-wise lowering). -/
def jsToLower (s : String) : String := String.mk (s.data.map Char.toLower)

/-- Embeds `String.prototype.toUpperCase` (character-wise raising). -/
def jsToUpper (s : String) : String := String.mk (s.data.map Char.toUpper)

/-- Embeds `String.prototype.split` with a one-character separator: split
into the (possibly empty) chunks between separator occurrences. -/
def splitOnChar (sep : Char) : List Char → List (List Char)
  | [] => [[]]
  | c :: rest =>
      let r := splitOnChar sep rest
      if c = sep then [] :: r
      else
        match r with
        | h :: t => (c :: h) :: t
        | [] => [[c]]

/-! ## JSON-Schema model parser (`component-types.ts`, `JSONSchemaParser`) -/

namespace ModelGen

/-- The `type` field of a JSON-Schema property: `string | string[]`. -/
inductive SchemaTypeField where
  | one (t : String)
  | many (ts : List String)
  deriving DecidableEq

/-- JSON-Schema property node. Fields the parser never reads (`properties`,
`required`, `enum`, numeric bounds, `pattern`, `$ref`, `minLength`,
`maxLength`) are omitted from the embedding. -/
inductive JSONSchemaProperty where
  | mk (type : SchemaTypeField) (description : Option String)
       (format : Option String) (items : Option JSONSchemaProperty)
       (nullable : Option Bool) (default : Option JSValue)

def JSONSchemaProperty.type : JSONSchemaProperty → SchemaTypeField
  | .mk t _ _ _ _ _ => t

def JSONSchemaProperty.description : JSONSchemaProperty → Option String
  | .mk _ d _ _ _ _ => d

def JSONSchemaProperty.format : JSONSchemaProperty → Option String
  | .mk _ _ f _ _ _ => f

def JSONSchemaProperty.items : JSONSchemaProperty → Option JSONSchemaProperty
  | .mk _ _ _ i _ _ => i

def JSONSchemaProperty.nullable : JSONSchemaProperty → Option Bool
  | .mk _ _ _ _ n _ => n

def JSONSchemaProperty.default : JSONSchemaProperty → Option JSValue
  | .mk _ _ _ _ _ d => d

/-- Root JSON-Schema document. The `type` union of literals is a string at
runtime; `properties` is a `Record` kept in insertion order. -/
structure JSONSchema where
  title : Option String
  description : Option String
  type : String
  properties : Option (List (String × JSONSchemaProperty))
  required : Option (List String)

/-- Normalized model property (`ParsedProperty` of `component-types.ts`,
JSON-Schema half). -/
structure ParsedProperty where
  name : String
  type : String
  description : Option String
  optional : Bool
  isArray : Bool
  format : Option String
  defaultValue : Option JSValue
  deriving DecidableEq

/-- Normalized model (`ParsedModel`). -/
structure ParsedModel where
  name : String
  description : Option String
  properties : List ParsedProperty
  deriving DecidableEq

namespace JSONSchemaParser

/-- Embeds `JSONSchemaParser.resolveType`: a union `type` list resolves to its
first non-`"null"` entry (JS `|| 'any'` also catches an empty-string entry). -/
def resolveType (prop : JSONSchemaProperty) : String :=
  match prop.type with
  | .many ts => jsStrOr (ts.find? (fun t => t != "null")) "any"
  | .one t => t

/-- Embeds `JSONSchemaParser.parseProperty`. -/
def parseProperty (name : String) (prop : JSONSchemaProperty)
    (isRequired : Bool) : ParsedProperty :=
  let type := resolveType prop
  let isArray := type == "array"
  let actualType :=
    match prop.items with
    | some it => if isArray then resolveType it else type
    | none => type
  { name := name
  , type := actualType
  , description := prop.description
  , optional := !isRequired || (prop.nullable == some true)
  , isArray := isArray
  , format := prop.format
  , defaultValue := prop.default }

/-- Embeds `JSONSchemaParser.parseProperties`. -/
def parseProperties (properties : List (String × JSONSchemaProperty))
    (required : List String) : List ParsedProperty :=
  properties.map (fun np => parseProperty np.1 np.2 (required.contains np.1))

/-- Embeds `JSONSchemaParser.parse`; the thrown error becomes `Except.error`. -/
def parse (schema : JSONSchema) : Except String ParsedModel :=
  if schema.type ≠ "object" then
    .error "Only object schemas are supported for model generation"
  else
    .ok { name := jsStrOr schema.title "UnnamedModel"
        , description := schema.description
        , properties := parseProperties (schema.properties.getD [])
            (schema.required.getD []) }

end JSONSchemaParser

end ModelGen

/-! ## OpenAPI parser (`openapi-types.ts`, `OpenAPIParser`) -/

namespace ApiGen

/-- Parameter location: the `in` field's union `'query' | 'header' | 'path'
| 'cookie'`. -/
inductive ParamLocation where
  | query
  | header
  | path
  | cookie
  deriving DecidableEq

/-- OpenAPI schema node (`OpenAPISchema`). The `$ref` field is embedded as
`ref`; fields the parser never reads (`enum`, `nullable`) are omitted. -/
inductive OpenAPISchema where
  | mk (type : Option String) (format : Option String)
       (properties : Option (List (String × OpenAPISchema)))
       (items : Option OpenAPISchema) (required : Option (List String))
       (ref : Option String) (description : Option String)

def OpenAPISchema.type : OpenAPISchema → Option String
  | .mk t _ _ _ _ _ _ => t

def OpenAPISchema.format : OpenAPISchema → Option String
  | .mk _ f _ _ _ _ _ => f

def OpenAPISchema.properties : OpenAPISchema → Option (List (String × OpenAPISchema))
  | .mk _ _ p _ _ _ _ => p

def OpenAPISchema.items : OpenAPISchema → Option OpenAPISchema
  | .mk _ _ _ i _ _ _ => i

def OpenAPISchema.required : OpenAPISchema → Option (List String)
  | .mk _ _ _ _ r _ _ => r

def OpenAPISchema.ref : OpenAPISchema → Option String
  | .mk _ _ _ _ _ r _ => r

def OpenAPISchema.description : OpenAPISchema → Option String
  | .mk _ _ _ _ _ _ d => d

/-- Declared request/response parameter (`OpenAPIParameter`); the source
field `in` is embedded as `loc`. -/
structure OpenAPIParameter where
  name : String
  loc : ParamLocation
  description : Option String
  required : Option Bool
  schema : OpenAPISchema

/-- Media type entry (`OpenAPIMediaType`). -/
structure OpenAPIMediaType where
  schema : OpenAPISchema

/-- Request body (`OpenAPIRequestBody`); `content` is a `Record` in
insertion order. -/
structure OpenAPIRequestBody where
  description : Option String
  required : Option Bool
  content : List (String × OpenAPIMediaType)

/-- Response entry (`OpenAPIResponse`). -/
structure OpenAPIResponse where
  description : String
  content : Option (List (String × OpenAPIMediaType))

/-- Operation object (`OpenAPIOperation`); the unused `security` field is
omitted. -/
structure OpenAPIOperation where
  operationId : Option String
  summary : Option String
  description : Option String
  tags : Option (List String)
  parameters : Option (List OpenAPIParameter)
  requestBody : Option OpenAPIRequestBody
  responses : List (String × OpenAPIResponse)

/-- Path item (`OpenAPIPath`): one optional operation per supported HTTP
method plus path-level shared parameters. -/
structure OpenAPIPath where
  get : Option OpenAPIOperation
  post : Option OpenAPIOperation
  put : Option OpenAPIOperation
  patch : Option OpenAPIOperation
  delete : Option OpenAPIOperation
  parameters : Option (List OpenAPIParameter)

/-- Normalized parameter (`ParsedParameter`). -/
structure ParsedParameter where
  name : String
  type : String
  description : Option String
  required : Bool
  isArray : Bool
  format : Option String
  deriving DecidableEq

/-- Normalized request body (`ParsedRequestBody`). -/
structure ParsedRequestBody where
  type : String
  description : Option String
  required : Bool
  contentType : String
  deriving DecidableEq

/-- Normalized response (`ParsedResponse`). -/
structure ParsedResponse where
  statusCode : String
  type : Option String
  description : String
  contentType : Option String
  deriving DecidableEq

/-- Normalized endpoint (`ParsedEndpoint`); `method` stays a string, as the
source casts it with `as any`. -/
structure ParsedEndpoint where
  operationId : String
  method : String
  path : String
  summary : Option String
  description : Option String
  pathParams : List ParsedParameter
  queryParams : List ParsedParameter
  headerParams : List ParsedParameter
  requestBody : Option ParsedRequestBody
  responses : List ParsedResponse
  tags : Option (List String)
  deriving DecidableEq

namespace OpenAPIParser

/-- Embeds `OpenAPIParser.resolveType`: follow a truthy `$ref` to its
trailing path segment, recurse through array `items`, fall back to the
literal `type` string (JS `|| 'any'` catching `undefined` and `""`). -/
def resolveType : OpenAPISchema → String
  | .mk t _ _ i _ rf _ =>
    match rf with
    | some r =>
        if r ≠ "" then ((splitOnChar '/' r.data).getLast?.map String.mk).getD ""
        else
          match t, i with
          | some "array", some it => resolveType it
          | _, _ => jsStrOr t "any"
    | none =>
        match t, i with
        | some "array", some it => resolveType it
        | _, _ => jsStrOr t "any"

/-- Embeds `OpenAPIParser.parseParameter`. -/
def parseParameter (param : OpenAPIParameter) : ParsedParameter :=
  let isArray := param.schema.type == some "array"
  let type :=
    match param.schema.items with
    | some it => if isArray then resolveType it else resolveType param.schema
    | none => resolveType param.schema
  { name := param.name
  , type := type
  , description := param.description
  , required := param.required.getD false
  , isArray := isArray
  , format := param.schema.format }

/-- Embeds `OpenAPIParser.parseRequestBody`. -/
def parseRequestBody (body : OpenAPIRequestBody) : ParsedRequestBody :=
  let contentType := jsStrOr (body.content.head?.map Prod.fst) "application/json"
  let schema := (body.content.lookup contentType).map OpenAPIMediaType.schema
  { type := match schema with
            | some s => resolveType s
            | none => "any"
  , description := body.description
  , required := body.required.getD false
  , contentType := contentType }

/-- Embeds `OpenAPIParser.parseResponses`. -/
def parseResponses (responses : List (String × OpenAPIResponse)) :
    List ParsedResponse :=
  responses.map (fun sr =>
    let contentType := (sr.2.content.getD []).head?.map Prod.fst
    let schema :=
      match contentType with
      | some ct =>
          if ct = "" then none
          else ((sr.2.content.getD []).lookup ct).map OpenAPIMediaType.schema
      | none => none
    { statusCode := sr.1
    , type := schema.map resolveType
    , description := sr.2.description
    , contentType := contentType })

/-- Embeds `OpenAPIParser.capitalize`. -/
def capitalize (str : String) : String := jsCapitalize str

/-- Embeds `OpenAPIParser.generateOperationId`: derive
`<lowercased method><CapitalizedSegments>` from the path, rendering a
`{param}` segment as `By<CapitalizedParam>`. -/
def generateOperationId (method : String) (path : String) : String :=
  let parts := (splitOnChar '/' path.data).filter (fun p => p ≠ [])
  let sanitized := parts.map (fun p =>
    if p.head? == some '\x7b' && p.getLast? == some '\x7d' then
      "By" ++ capitalize (String.mk (p.drop 1).dropLast)
    else
      capitalize (String.mk p))
  jsToLower method ++ String.join sanitized

/-- Embeds `OpenAPIParser.parseOperation`. -/
def parseOperation (method : String) (path : String)
    (operation : OpenAPIOperation) (pathParams : List OpenAPIParameter) :
    ParsedEndpoint :=
  let operationId := jsStrOr operation.operationId (generateOperationId method path)
  let allParams := pathParams ++ operation.parameters.getD []
  let pathParameters := allParams.filter (fun p => p.loc == ParamLocation.path)
  let queryParameters := allParams.filter (fun p => p.loc == ParamLocation.query)
  let headerParameters := allParams.filter (fun p => p.loc == ParamLocation.header)
  { operationId := operationId
  , method := jsToUpper method
  , path := path
  , summary := operation.summary
  , description := operation.description
  , pathParams := pathParameters.map parseParameter
  , queryParams := queryParameters.map parseParameter
  , headerParams := headerParameters.map parseParameter
  , requestBody := operation.requestBody.map parseRequestBody
  , responses := parseResponses operation.responses
  , tags := operation.tags }

/-- Selects the operation a method name denotes on a path item, as the
source's indexed access `pathItem[method]`. -/
def methodOperation (pathItem : OpenAPIPath) (method : String) :
    Option OpenAPIOperation :=
  if method = "get" then pathItem.get
  else if method = "post" then pathItem.post
  else if method = "put" then pathItem.put
  else if method = "patch" then pathItem.patch
  else if method = "delete" then pathItem.delete
  else none

/-- The five supported HTTP methods, in the iteration order of
`parseEndpoints`. -/
def supportedMethods : List String := ["get", "post", "put", "patch", "delete"]

/-- Embeds `OpenAPIParser.parseEndpoints`: for each path entry and each
declared method, one endpoint. -/
def parseEndpoints (paths : List (String × OpenAPIPath)) : List ParsedEndpoint :=
  paths.flatMap (fun pp =>
    supportedMethods.filterMap (fun method =>
      (methodOperation pp.2 method).map (fun op =>
        parseOperation method pp.1 op (pp.2.parameters.getD []))))

end OpenAPIParser

end ApiGen

/-! ## Design-token parser (`design-tokens-types.ts`, `DesignTokensParser`) -/

namespace ThemeGen

/-- A token value that is `string | number` in the source. -/
inductive StrOrNum where
  | str (s : String)
  | num (q : ℚ)
  deriving DecidableEq

/-- ASCII whitespace skipped by `parseFloat` before the number. -/
def jsWhitespace (c : Char) : Bool :=
  c = ' ' || c = '\t' || c = '\n' || c = '\r' || c = '\x0b' || c = '\x0c'

/-- Numeric value of a digit list read in base 10. -/
def digitsVal (l : List Char) : ℕ :=
  l.foldl (fun a c => 10 * a + (c.toNat - 48)) 0

/-- Embeds JavaScript `parseFloat` on the finite fragment: optional
whitespace and sign, decimal digits with an optional fraction and exponent,
reading the longest valid numeric prefix. `none` is `NaN` (no digits at
all); the `Infinity` literals are outside the rational model and also map
to `none`. -/
def jsParseFloatL (cs0 : List Char) : Option ℚ :=
  let cs1 := cs0.dropWhile jsWhitespace
  let neg := cs1.head? == some '-'
  let cs := if neg || cs1.head? == some '+' then cs1.tail else cs1
  let sgn : ℚ := if neg then -1 else 1
  let ip := cs.takeWhile Char.isDigit
  let rest := cs.dropWhile Char.isDigit
  let fp := match rest with
    | '.' :: r => r.takeWhile Char.isDigit
    | _ => []
  let rest2 := match rest with
    | '.' :: r => r.dropWhile Char.isDigit
    | _ => rest
  if ip.isEmpty && fp.isEmpty then none
  else
    let mant : ℚ := sgn * ((digitsVal ip : ℚ) + (digitsVal fp : ℚ) / ((10 : ℚ) ^ fp.length))
    let ex : ℤ :=
      match rest2 with
      | c :: r =>
          if c = 'e' || c = 'E' then
            let eneg := r.head? == some '-'
            let r2 := if eneg || r.head? == some '+' then r.tail else r
            let ed := r2.takeWhile Char.isDigit
            if ed.isEmpty then 0 else (if eneg then -1 else 1) * (digitsVal ed : ℤ)
          else 0
      | [] => 0
    some (mant * (10 : ℚ) ^ ex)

/-- `parseFloat` on a string. -/
def jsParseFloat (s : String) : Option ℚ := jsParseFloatL s.data

/-- Character class `[\d.]` of the token-value regex. -/
def isDigitDot (c : Char) : Bool := c.isDigit || c = '.'

/-- Character class `[a-z%]` with the `i` flag of the token-value regex. -/
def isUnitChar (c : Char) : Bool := c.isAlpha || c = '%'

namespace DesignTokensParser

/-- Embeds `DesignTokensParser.parseValue`. A bare number defaults the unit
to `"px"`; a string is matched against `^([\d.]+)([a-z%]*)$` (the numeric
part through `parseFloat`, whose `NaN` is `none`); a non-matching string
falls back to `parseFloat(value) || 0` with unit `"px"`. -/
def parseValue (value : StrOrNum) : Option ℚ × String :=
  match value with
  | .num q => (some q, "px")
  | .str v =>
      let cs := v.data
      let s1 := cs.takeWhile isDigitDot
      let s2 := cs.dropWhile isDigitDot
      if s1 ≠ [] && s2.all isUnitChar then
        (jsParseFloatL s1, if s2.isEmpty then "px" else String.mk s2)
      else
        (some ((jsParseFloatL cs).getD 0), "px")

end DesignTokensParser

/-- A declared decimal numeral: nonempty integer digits with an optional
nonempty fraction, the way a nonnegative number is written before a unit. -/
def decimalNumeral (ip fp : List Char) : String :=
  if fp = [] then String.mk ip else String.mk (ip ++ '.' :: fp)

/-- The rational a decimal numeral denotes. -/
def numeralVal (ip fp : List Char) : ℚ :=
  (digitsVal ip : ℚ) + (digitsVal fp : ℚ) / ((10 : ℚ) ^ fp.length)

/-- A string has a leading numeric portion when `parseFloat` reads a finite
number from its front. -/
def hasLeadingNumeric (s : String) : Bool := (jsParseFloat s).isSome

/-- Rendering of a parsed numeric token value in a template: the `NaN` case
(`none`) prints as JS does. -/
def renderJSNum (v : Option ℚ) : String :=
  match v with
  | some q => jsNumToString q
  | none => "NaN"

/-- Normalized color entry (`ParsedColorGroup`). -/
structure ParsedColorGroup where
  name : String
  value : String
  description : Option String
  deriving DecidableEq

/-- Normalized font family (`ParsedFontFamily`). -/
structure ParsedFontFamily where
  name : String
  value : String
  fallback : Option (List String)
  deriving DecidableEq

/-- Normalized font size (`ParsedFontSize`); the value is `parseValue`'s
numeric output, `none` for `NaN`. -/
structure ParsedFontSize where
  name : String
  value : Option ℚ
  unit : String
  deriving DecidableEq

/-- Normalized font weight (`ParsedFontWeight`): the raw `string | number`. -/
structure ParsedFontWeight where
  name : String
  value : StrOrNum
  deriving DecidableEq

/-- Normalized line height (`ParsedLineHeight`). -/
structure ParsedLineHeight where
  name : String
  value : Option ℚ
  unit : String
  deriving DecidableEq

/-- Normalized letter spacing (`ParsedLetterSpacing`). -/
structure ParsedLetterSpacing where
  name : String
  value : Option ℚ
  unit : String
  deriving DecidableEq

/-- Normalized spacing entry (`ParsedSpacing`). -/
structure ParsedSpacing where
  name : String
  value : Option ℚ
  unit : String
  deriving DecidableEq

/-- Normalized border radius (`ParsedBorderRadius`). -/
structure ParsedBorderRadius where
  name : String
  value : Option ℚ
  unit : String
  deriving DecidableEq

/-- Normalized shadow (`ParsedShadow`). -/
structure ParsedShadow where
  name : String
  value : String
  description : Option String
  deriving DecidableEq

/-- Normalized breakpoint (`ParsedBreakpoint`). -/
structure ParsedBreakpoint where
  name : String
  value : Option ℚ
  unit : String
  deriving DecidableEq

/-- Normalized typography block (`ParsedTypography`). -/
structure ParsedTypography where
  fontFamilies : List ParsedFontFamily
  fontSizes : List ParsedFontSize
  fontWeights : List ParsedFontWeight
  lineHeights : List ParsedLineHeight
  letterSpacing : List ParsedLetterSpacing
  deriving DecidableEq

/-- Normalized theme (`ParsedTheme`). -/
structure ParsedTheme where
  name : String
  colors : List ParsedColorGroup
  typography : ParsedTypography
  spacing : List ParsedSpacing
  borderRadius : List ParsedBorderRadius
  shadows : List ParsedShadow
  breakpoints : List ParsedBreakpoint
  deriving DecidableEq

/-- JS truthiness of an optional string (`undefined` and `""` falsy). -/
def descTruthy (v : Option String) : Bool := v.getD "" != ""

/-- Replace the first occurrence of `pat` in `s` by `repl`, as JS
`String.prototype.replace` with a string pattern. -/
def jsReplaceFirst (s pat repl : String) : String :=
  match s.splitOn pat with
  | [] => s
  | [x] => x
  | x :: y :: r => x ++ repl ++ String.intercalate pat (y :: r)

namespace KotlinThemeGenerator

/-- Embeds `KotlinThemeGenerator.capitalize`. -/
def capitalize (str : String) : String := jsCapitalize str

/-- Embeds `KotlinThemeGenerator.convertToKotlinColor`: strip one leading
`#`, pad a six-digit hex value with full opacity, uppercase. -/
def convertToKotlinColor (hexColor : String) : String :=
  let hex := jsReplaceFirst hexColor "#" ""
  let hex := if hex.length = 6 then "FF" ++ hex else hex
  "Color(0x" ++ jsToUpper hex ++ ")"

/-- Embeds `KotlinThemeGenerator.convertToKotlinFontWeight`. -/
def convertToKotlinFontWeight (weight : StrOrNum) : String :=
  match weight with
  | .num q => "FontWeight(" ++ jsNumToString q ++ ")"
  | .str s =>
      jsStrOr
        (([ ("thin", "FontWeight.Thin")
          , ("extralight", "FontWeight.ExtraLight")
          , ("light", "FontWeight.Light")
          , ("normal", "FontWeight.Normal")
          , ("regular", "FontWeight.Normal")
          , ("medium", "FontWeight.Medium")
          , ("semibold", "FontWeight.SemiBold")
          , ("bold", "FontWeight.Bold")
          , ("extrabold", "FontWeight.ExtraBold")
          , ("black", "FontWeight.Black") ].lookup (jsToLower s)))
        "FontWeight.Normal"

/-- Embeds `KotlinThemeGenerator.hasTypography` (font families, sizes and
weights only). -/
def hasTypography (theme : ParsedTheme) : Bool :=
  theme.typography.fontFamilies.length > 0 ||
  theme.typography.fontSizes.length > 0 ||
  theme.typography.fontWeights.length > 0

/-- The four header lines of `KotlinThemeGenerator.createHeader`; the
generation timestamp is the explicit `timestamp` input of the embedding. -/
def createHeaderLines (sourceFile timestamp : String) : List String :=
  [ "// Generated by cuppa-cli from " ++ sourceFile
  , "// Generation date: " ++ timestamp
  , "// DO NOT EDIT MANUALLY - Changes will be overwritten"
  , "" ]

/-- Embeds `KotlinThemeGenerator.createHeader`. -/
def createHeader (sourceFile timestamp : String) : String :=
  joinNL (createHeaderLines sourceFile timestamp)

/-- The key table `typographyMap` of `KotlinThemeGenerator.generate` (each
key maps to itself). -/
def typographyKeys : List String :=
  [ "displayLarge", "displayMedium", "displaySmall"
  , "headlineLarge", "headlineMedium", "headlineSmall"
  , "titleLarge", "titleMedium", "titleSmall"
  , "bodyLarge", "bodyMedium", "bodySmall"
  , "labelLarge", "labelMedium", "labelSmall" ]

/-- The lines `KotlinThemeGenerator.generate` pushes after the header. -/
def generateBodyLines (theme : ParsedTheme) (sourceFile : String) : List String :=
  [ "import androidx.compose.ui.graphics.Color"
  , "import androidx.compose.ui.unit.dp"
  , "import androidx.compose.ui.unit.sp"
  , "import androidx.compose.material3.Typography"
  , "import androidx.compose.ui.text.TextStyle"
  , "import androidx.compose.ui.text.font.FontWeight"
  , "" ] ++
  [ "/**"
  , " * Design system theme generated from " ++ sourceFile
  , " */"
  , "object " ++ theme.name ++ " \x7b"
  , "" ] ++
  (if theme.colors.length > 0 then
     [ "    // Colors", "    object Colors \x7b" ] ++
     (theme.colors.flatMap (fun color =>
        (if descTruthy color.description then
           [ "        /** " ++ color.description.getD "" ++ " */" ] else []) ++
        [ "        val " ++ capitalize color.name ++ " = " ++
            convertToKotlinColor color.value ])) ++
     [ "    \x7d", "" ]
   else []) ++
  (if hasTypography theme then
     [ "    // Typography" ] ++
     (if theme.typography.fontFamilies.length > 0 then
        [ "    object FontFamilies \x7b" ] ++
        (theme.typography.fontFamilies.map (fun font =>
           "        const val " ++ capitalize font.name ++ " = \"" ++ font.value ++ "\"")) ++
        [ "    \x7d", "" ]
      else []) ++
     (if theme.typography.fontSizes.length > 0 then
        [ "    object FontSizes \x7b" ] ++
        (theme.typography.fontSizes.map (fun size =>
           "        val " ++ capitalize size.name ++ " = " ++ renderJSNum size.value ++ ".sp")) ++
        [ "    \x7d", "" ]
      else []) ++
     (if theme.typography.fontWeights.length > 0 then
        [ "    object FontWeights \x7b" ] ++
        (theme.typography.fontWeights.map (fun weight =>
           "        val " ++ capitalize weight.name ++ " = " ++
             convertToKotlinFontWeight weight.value)) ++
        [ "    \x7d", "" ]
      else [])
   else []) ++
  (if theme.spacing.length > 0 then
     [ "    // Spacing", "    object Spacing \x7b" ] ++
     (theme.spacing.map (fun space =>
        "        val " ++ capitalize space.name ++ " = " ++ renderJSNum space.value ++ ".dp")) ++
     [ "    \x7d", "" ]
   else []) ++
  (if theme.borderRadius.length > 0 then
     [ "    // Border Radius", "    object BorderRadius \x7b" ] ++
     (theme.borderRadius.map (fun radius =>
        "        val " ++ capitalize radius.name ++ " = " ++ renderJSNum radius.value ++ ".dp")) ++
     [ "    \x7d", "" ]
   else []) ++
  (if theme.shadows.length > 0 then
     [ "    // Shadows", "    object Shadows \x7b" ] ++
     (theme.shadows.flatMap (fun shadow =>
        (if descTruthy shadow.description then
           [ "        /** " ++ shadow.description.getD "" ++ " */" ] else []) ++
        [ "        const val " ++ capitalize shadow.name ++ " = \"" ++ shadow.value ++ "\"" ])) ++
     [ "    \x7d", "" ]
   else []) ++
  [ "\x7d", "" ] ++
  (if theme.typography.fontSizes.length > 0 then
     [ "/**", " * Material 3 Typography configuration", " */"
     , "val " ++ theme.name ++ "Typography = Typography(" ] ++
     (let entries := typographyKeys.filterMap (fun key =>
        match theme.typography.fontSizes.find? (fun s =>
            jsToLower s.name == jsToLower key) with
        | some ms => some ("    " ++ key ++ " = TextStyle(fontSize = " ++ theme.name ++
            ".FontSizes." ++ capitalize ms.name ++ ")")
        | none => none)
      if entries.length > 0 then [ String.intercalate ",\n" entries ] else []) ++
     [ ")", "" ]
   else [])

/-- Embeds `KotlinThemeGenerator.generate`: the header line block followed
by the body lines, joined with newlines. -/
def generate (theme : ParsedTheme) (sourceFile timestamp : String) : String :=
  joinNL (createHeader sourceFile timestamp :: generateBodyLines theme sourceFile)

end KotlinThemeGenerator

end ThemeGen

/-! ## Plugin-spec parser (`plugin-types.ts`, `PluginSpecParser`) -/

namespace PluginGen

/-- Configuration property of a plugin spec (`PluginConfigProperty`). -/
structure PluginConfigProperty where
  name : String
  type : String
  description : Option String
  required : Bool
  defaultValue : Option JSValue
  deriving DecidableEq

/-- Configuration schema (`PluginConfigSpec`). -/
structure PluginConfigSpec where
  properties : List PluginConfigProperty
  deriving DecidableEq

/-- Method parameter (`PluginMethodParameter`). -/
structure PluginMethodParameter where
  name : String
  type : String
  required : Bool
  defaultValue : Option JSValue
  deriving DecidableEq

/-- Plugin method (`PluginMethod`). -/
structure PluginMethod where
  name : String
  description : Option String
  parameters : List PluginMethodParameter
  returnType : String
  isAsync : Bool
  throws : Bool
  deriving DecidableEq

/-- Plugin model property (`PluginModelProperty`). -/
structure PluginModelProperty where
  name : String
  type : String
  description : Option String
  required : Bool
  deriving DecidableEq

/-- Plugin model (`PluginModel`). -/
structure PluginModel where
  name : String
  description : Option String
  properties : List PluginModelProperty
  deriving DecidableEq

/-- Plugin provider entry (`PluginProvider`). -/
structure PluginProvider where
  name : String
  description : Option String
  protocol : Option String
  deriving DecidableEq

/-- Input plugin specification (`PluginSpec`). -/
structure PluginSpec where
  name : String
  identifier : String
  version : String
  description : Option String
  author : Option String
  dependencies : Option (List String)
  configuration : Option PluginConfigSpec
  methods : Option (List PluginMethod)
  models : Option (List PluginModel)
  providers : Option (List PluginProvider)
  deriving DecidableEq

/-- Normalized configuration property (`ParsedConfigProperty`). -/
structure ParsedConfigProperty where
  name : String
  type : String
  description : String
  required : Bool
  defaultValue : Option JSValue
  deriving DecidableEq

/-- Normalized configuration (`ParsedPluginConfig`). -/
structure ParsedPluginConfig where
  properties : List ParsedConfigProperty
  deriving DecidableEq

/-- Normalized method parameter (`ParsedMethodParameter`). -/
structure ParsedMethodParameter where
  name : String
  type : String
  required : Bool
  defaultValue : Option JSValue
  deriving DecidableEq

/-- Normalized plugin method (`ParsedPluginMethod`). -/
structure ParsedPluginMethod where
  name : String
  description : String
  parameters : List ParsedMethodParameter
  returnType : String
  isAsync : Bool
  throws : Bool
  deriving DecidableEq

/-- Normalized model property (`ParsedModelProperty`). -/
structure ParsedModelProperty where
  name : String
  type : String
  description : String
  required : Bool
  deriving DecidableEq

/-- Normalized plugin model (`ParsedPluginModel`). -/
structure ParsedPluginModel where
  name : String
  description : String
  properties : List ParsedModelProperty
  deriving DecidableEq

/-- Normalized provider (`ParsedPluginProvider`). -/
structure ParsedPluginProvider where
  name : String
  description : String
  protocol : String
  deriving DecidableEq

/-- Normalized plugin (`ParsedPlugin`). -/
structure ParsedPlugin where
  name : String
  identifier : String
  version : String
  description : String
  author : String
  dependencies : List String
  configuration : ParsedPluginConfig
  methods : List ParsedPluginMethod
  models : List ParsedPluginModel
  providers : List ParsedPluginProvider
  managerName : String
  protocolName : Option String
  deriving DecidableEq

namespace PluginSpecParser

/-- Embeds `PluginSpecParser.parseConfig`: a missing configuration defaults
to the single debug-logging flag. -/
def parseConfig (config : Option PluginConfigSpec) : ParsedPluginConfig :=
  match config with
  | none =>
      { properties :=
          [ { name := "enableDebugLogging"
            , type := "boolean"
            , description := "Whether to enable debug logging"
            , required := false
            , defaultValue := some (JSValue.bool false) } ] }
  | some c =>
      { properties := c.properties.map (fun prop =>
          { name := prop.name
          , type := prop.type
          , description := jsStrOr prop.description prop.name
          , required := prop.required
          , defaultValue := prop.defaultValue }) }

/-- Embeds `PluginSpecParser.parseMethods`. -/
def parseMethods (methods : List PluginMethod) : List ParsedPluginMethod :=
  methods.map (fun method =>
    { name := method.name
    , description := jsStrOr method.description method.name
    , parameters := method.parameters.map (fun param =>
        { name := param.name
        , type := param.type
        , required := param.required
        , defaultValue := param.defaultValue })
    , returnType := method.returnType
    , isAsync := method.isAsync
    , throws := method.throws })

/-- Embeds `PluginSpecParser.parseModels`. -/
def parseModels (models : List PluginModel) : List ParsedPluginModel :=
  models.map (fun model =>
    { name := model.name
    , description := jsStrOr model.description model.name
    , properties := model.properties.map (fun prop =>
        { name := prop.name
        , type := prop.type
        , description := jsStrOr prop.description prop.name
        , required := prop.required }) })

/-- Embeds `PluginSpecParser.parseProviders`. -/
def parseProviders (providers : List PluginProvider) (defaultProtocol : String) :
    List ParsedPluginProvider :=
  providers.map (fun provider =>
    { name := provider.name
    , description := jsStrOr provider.description provider.name
    , protocol := jsStrOr provider.protocol defaultProtocol })

/-- Embeds `PluginSpecParser.parse`. The derived plugin name is
`Cuppa<Name>Plugin`; the protocol name exists only when at least one
provider is declared. -/
def parse (spec : PluginSpec) : ParsedPlugin :=
  let name := spec.name
  let pluginName := "Cuppa" ++ name ++ "Plugin"
  let managerName := name ++ "Manager"
  let protocolName :=
    if (match spec.providers with
        | some l => decide (l.length > 0)
        | none => false) then some (name ++ "Provider")
    else none
  { name := pluginName
  , identifier := jsStrOr (some spec.identifier) ("com.cuppa." ++ jsToLower name)
  , version := jsStrOr (some spec.version) "1.0.0"
  , description := jsStrOr spec.description ("Plugin for " ++ name ++ " functionality")
  , author := jsStrOr spec.author "MyCuppa Team"
  , dependencies := spec.dependencies.getD []
  , configuration := parseConfig spec.configuration
  , methods := parseMethods (spec.methods.getD [])
  , models := parseModels (spec.models.getD [])
  , providers := parseProviders (spec.providers.getD []) (protocolName.getD "")
  , managerName := managerName
  , protocolName := protocolName }

end PluginSpecParser

end PluginGen

/-! ## Component-spec parser and Swift component generator
(`component-types.ts`, `ComponentSpecParser`;
`swift-component-generator.ts`, `SwiftComponentGenerator`) -/

namespace ComponentGen

/-- JS truthiness of an optional string field (`undefined` and `""` falsy). -/
def jsTruthyS (v : Option String) : Bool := v.getD "" != ""

/-- JS truthiness of an optional numeric field (`undefined` and `0` falsy). -/
def jsTruthyN (v : Option ℚ) : Bool := v.getD 0 != 0

/-- Component property declaration (`ComponentProperty`). -/
structure ComponentProperty where
  name : String
  type : String
  required : Bool
  defaultValue : Option JSValue
  description : Option String
  deriving DecidableEq

/-- The `padding` field's union `number | {top?,bottom?,leading?,trailing?}`. -/
inductive PaddingSpec where
  | num (q : ℚ)
  | obj (top bottom leading trailing : Option ℚ)
  deriving DecidableEq

/-- Style block (`ComponentStyle`). -/
structure ComponentStyle where
  backgroundColor : Option String
  foregroundColor : Option String
  borderColor : Option String
  borderWidth : Option ℚ
  cornerRadius : Option ℚ
  padding : Option PaddingSpec
  font : Option String
  fontWeight : Option String
  minHeight : Option ℚ
  maxWidth : Option String
  deriving DecidableEq

/-- Visual state (`ComponentState`). -/
structure ComponentState where
  showSpinner : Option Bool
  disableInteraction : Option Bool
  opacity : Option ℚ
  backgroundColor : Option String
  foregroundColor : Option String
  borderColor : Option String
  scale : Option ℚ
  deriving DecidableEq

/-- Action parameter (`ComponentActionParameter`). -/
structure ComponentActionParameter where
  name : String
  type : String
  label : Option String
  deriving DecidableEq

/-- Action declaration (`ComponentAction`); `type` is the `'sync' | 'async'`
union, a string at runtime. -/
structure ComponentAction where
  name : String
  type : String
  parameters : List ComponentActionParameter
  returnType : Option String
  deriving DecidableEq

/-- Slot declaration (`ComponentSlot`). -/
structure ComponentSlot where
  name : String
  required : Bool
  description : Option String
  deriving DecidableEq

/-- Input component specification (`ComponentSpec`). -/
structure ComponentSpec where
  component : String
  category : String
  description : Option String
  properties : List ComponentProperty
  style : Option ComponentStyle
  states : Option (List (String × ComponentState))
  actions : Option (List ComponentAction)
  slots : Option (List ComponentSlot)
  deriving DecidableEq

/-- Normalized component property (`ParsedProperty` of `component-types.ts`,
component half). -/
structure ParsedProperty where
  name : String
  type : String
  swiftType : String
  required : Bool
  defaultValue : Option JSValue
  description : String
  isBinding : Bool
  deriving DecidableEq

/-- Normalized four-sided padding. -/
structure ParsedPadding where
  top : ℚ
  bottom : ℚ
  leading : ℚ
  trailing : ℚ
  deriving DecidableEq

/-- Normalized style (`ParsedStyle`). -/
structure ParsedStyle where
  backgroundColor : Option String
  foregroundColor : Option String
  borderColor : Option String
  borderWidth : Option ℚ
  cornerRadius : Option ℚ
  padding : ParsedPadding
  font : Option String
  fontWeight : Option String
  minHeight : Option ℚ
  maxWidth : Option String
  deriving DecidableEq

/-- Normalized state (`ParsedState`). -/
structure ParsedState where
  name : String
  showSpinner : Bool
  disableInteraction : Bool
  opacity : Option ℚ
  backgroundColor : Option String
  foregroundColor : Option String
  borderColor : Option String
  scale : Option ℚ
  deriving DecidableEq

/-- Normalized action parameter (`ParsedActionParameter`). -/
structure ParsedActionParameter where
  name : String
  type : String
  swiftType : String
  label : Option String
  deriving DecidableEq

/-- Normalized action (`ParsedAction`). -/
structure ParsedAction where
  name : String
  isAsync : Bool
  parameters : List ParsedActionParameter
  returnType : String
  deriving DecidableEq

/-- Normalized slot (`ParsedSlot`). -/
structure ParsedSlot where
  name : String
  required : Bool
  description : String
  deriving DecidableEq

/-- Normalized component (`ParsedComponent`); the states `Map` keeps
insertion order, embedded as an association list. -/
structure ParsedComponent where
  name : String
  category : String
  description : String
  properties : List ParsedProperty
  style : ParsedStyle
  states : List (String × ParsedState)
  actions : List ParsedAction
  slots : List ParsedSlot
  hasAsyncAction : Bool
  hasLoadingState : Bool
  deriving DecidableEq

namespace ComponentSpecParser

/-- Embeds `ComponentSpecParser.mapToSwiftType` on character lists: unwrap a
`Binding<...>` wrapper, map `T[]` to `[T]` and `T?` to `T?` recursively, and
finally look the name up in the identity `typeMap` (whose entries all map a
name to itself, so `typeMap[type] || type` leaves the string unchanged). -/
def mapToSwiftTypeL (cs : List Char) : List Char :=
  if h1 : "Binding<".data.isPrefixOf cs && ['>'].isSuffixOf cs then
    mapToSwiftTypeL ((cs.drop 8).dropLast)
  else if h2 : "[]".data.isSuffixOf cs then
    '[' :: mapToSwiftTypeL (cs.dropLast.dropLast) ++ [']']
  else if h3 : ['?'].isSuffixOf cs then
    mapToSwiftTypeL cs.dropLast ++ ['?']
  else
    (jsStrOr (([ "String", "Int", "Double", "Bool", "Color", "Font", "Image",
        "Void", "Any" ].find? (fun t => t == String.mk cs))) (String.mk cs)).data
termination_by cs.length
decreasing_by
  · simp only [Bool.and_eq_true] at h1
    have hle : 1 ≤ cs.length := by
      have := List.IsSuffix.length_le (List.isSuffixOf_iff_suffix.mp h1.2)
      simpa using this
    have h8 : (cs.drop 8).length = cs.length - 8 := by simp
    have hdl : ((cs.drop 8).dropLast).length = (cs.drop 8).length - 1 := by simp
    omega
  · have hle : 2 ≤ cs.length := by
      have := List.IsSuffix.length_le (List.isSuffixOf_iff_suffix.mp h2)
      simpa using this
    have : (cs.dropLast.dropLast).length = cs.length - 1 - 1 := by simp
    omega
  · have hle : 1 ≤ cs.length := by
      have := List.IsSuffix.length_le (List.isSuffixOf_iff_suffix.mp h3)
      simpa using this
    have : (cs.dropLast).length = cs.length - 1 := by simp
    omega

/-- `mapToSwiftType` on strings. The identity `typeMap` makes the base case
the identity, so only the three structural rules act. -/
def mapToSwiftType (type : String) : String :=
  String.mk (mapToSwiftTypeL type.data)

/-- Embeds `ComponentSpecParser.parseProperties`. -/
def parseProperties (properties : List ComponentProperty) : List ParsedProperty :=
  properties.map (fun prop =>
    let isBinding := prop.type.startsWith "Binding<"
    { name := prop.name
    , type := prop.type
    , swiftType := mapToSwiftType prop.type
    , required := prop.required
    , defaultValue := prop.defaultValue
    , description := jsStrOr prop.description prop.name
    , isBinding := isBinding })

/-- Embeds `ComponentSpecParser.parseStyle` (padding normalized to four
explicit sides, default 16). -/
def parseStyle (style : Option ComponentStyle) : ParsedStyle :=
  let defaultPadding : ParsedPadding :=
    { top := 16, bottom := 16, leading := 16, trailing := 16 }
  match style with
  | none =>
      { backgroundColor := none, foregroundColor := none, borderColor := none
      , borderWidth := none, cornerRadius := none, padding := defaultPadding
      , font := none, fontWeight := none, minHeight := none, maxWidth := none }
  | some style =>
      let padding :=
        match style.padding with
        | some (.num q) => { top := q, bottom := q, leading := q, trailing := q }
        | some (.obj t b l r) =>
            { top := t.getD 16, bottom := b.getD 16
            , leading := l.getD 16, trailing := r.getD 16 }
        | none => defaultPadding
      { backgroundColor := style.backgroundColor
      , foregroundColor := style.foregroundColor
      , borderColor := style.borderColor
      , borderWidth := style.borderWidth
      , cornerRadius := style.cornerRadius
      , padding := padding
      , font := style.font
      , fontWeight := style.fontWeight
      , minHeight := style.minHeight
      , maxWidth := style.maxWidth }

/-- Embeds `ComponentSpecParser.parseStates`. -/
def parseStates (states : Option (List (String × ComponentState))) :
    List (String × ParsedState) :=
  (states.getD []).map (fun ns =>
    (ns.1,
      { name := ns.1
      , showSpinner := (ns.2.showSpinner).getD false
      , disableInteraction := (ns.2.disableInteraction).getD false
      , opacity := ns.2.opacity
      , backgroundColor := ns.2.backgroundColor
      , foregroundColor := ns.2.foregroundColor
      , borderColor := ns.2.borderColor
      , scale := ns.2.scale }))

/-- Embeds `ComponentSpecParser.parseActions`: an action is asynchronous
exactly when its declared type is the string `"async"`. -/
def parseActions (actions : List ComponentAction) : List ParsedAction :=
  actions.map (fun action =>
    { name := action.name
    , isAsync := action.type == "async"
    , parameters := action.parameters.map (fun param =>
        { name := param.name
        , type := param.type
        , swiftType := mapToSwiftType param.type
        , label := param.label })
    , returnType := jsStrOr action.returnType "Void" })

/-- Embeds `ComponentSpecParser.parseSlots`. -/
def parseSlots (slots : List ComponentSlot) : List ParsedSlot :=
  slots.map (fun slot =>
    { name := slot.name
    , required := slot.required
    , description := jsStrOr slot.description slot.name })

/-- Embeds `ComponentSpecParser.parse`: `hasAsyncAction` is `some` over the
parsed actions, `hasLoadingState` checks `spec.states?.loading`. -/
def parse (spec : ComponentSpec) : ParsedComponent :=
  let actions := parseActions (spec.actions.getD [])
  let hasAsyncAction := actions.any (fun a => a.isAsync)
  let hasLoadingState :=
    match spec.states with
    | some l => (l.lookup "loading").isSome
    | none => false
  { name := spec.component
  , category := spec.category
  , description := jsStrOr spec.description spec.component
  , properties := parseProperties spec.properties
  , style := parseStyle spec.style
  , states := parseStates spec.states
  , actions := actions
  , slots := parseSlots (spec.slots.getD [])
  , hasAsyncAction := hasAsyncAction
  , hasLoadingState := hasLoadingState }

end ComponentSpecParser

namespace SwiftComponentGenerator

/-- Embeds `SwiftComponentGenerator.createHeader`; the generation timestamp
(`new Date().toISOString().split('T')[0]` in the source) is the explicit
`timestamp` input of the embedding. -/
def createHeader (componentName sourceFile timestamp : String) : String :=
  joinNL
    [ "//"
    , "//  " ++ componentName ++ ".swift"
    , "//  CuppaUI"
    , "//"
    , "//  Generated from component specifications on " ++ timestamp ++ "."
    , "//  Copyright © 2025 MyCuppa. All rights reserved."
    , "//"
    , "//  " ++ componentName ++ " component"
    , "//"
    , "//  ⚠️ DO NOT EDIT: This file is auto-generated from component specifications."
    , "//  Source: " ++ sourceFile
    , "//  To make changes, update the component JSON files and regenerate."
    , "//"
    , "" ]

/-- Embeds `SwiftComponentGenerator.formatDefaultValue`. -/
def formatDefaultValue (value : JSValue) (type : String) : String :=
  if type == "String" then "\"" ++ value.render ++ "\""
  else if type == "Bool" then (if value.truthy then "true" else "false")
  else if type == "Color" then "." ++ value.render
  else value.render

/-- Embeds `SwiftComponentGenerator.generateExampleUsage`. -/
def generateExampleUsage (component : ParsedComponent) : String :=
  let requiredProps := component.properties.filter (fun p => p.required)
  let propsStr := String.intercalate ", "
    ((requiredProps.map (fun p =>
        if p.type == "String" then "\"" ++ p.name ++ "\""
        else if p.type == "Bool" then "true"
        else if p.type == "Int" || p.type == "Double" then "0"
        else p.name)).take 1)
  if component.hasAsyncAction then
    "/// " ++ component.name ++ "(" ++ propsStr ++ ") \x7b\n///     // Handle action\n/// \x7d"
  else
    "/// " ++ component.name ++ "(" ++ propsStr ++ ")"

/-- The property line of an initializer's parameter list; the same `map`
body appears verbatim in `generateInitializer`, `generateAsyncInitializer`
and `generateSyncInitializer`. -/
def initPropParam (prop : ParsedProperty) : String :=
  let isBinding := prop.type.startsWith "Binding<"
  let paramType := if isBinding then "Binding<" ++ prop.swiftType ++ ">" else prop.swiftType
  let defaultVal :=
    if !prop.required && prop.defaultValue.isSome then
      " = " ++ formatDefaultValue ((prop.defaultValue).getD (JSValue.str "")) prop.type
    else ""
  "        " ++ prop.name ++ ": " ++ paramType ++ defaultVal

/-- The property-assignment line shared by the three initializer
generators. -/
def initPropAssign (prop : ParsedProperty) : String :=
  let isBinding := prop.type.startsWith "Binding<"
  let px := if isBinding then "_" else "self."
  "        " ++ px ++ prop.name ++ " = " ++ prop.name

/-- Embeds `SwiftComponentGenerator.generateInitializer` (the single
initializer of a component without asynchronous actions: it takes every
declared action with its own signature). -/
def generateInitializer (component : ParsedComponent) : String :=
  let params := component.properties.map initPropParam ++
    component.actions.map (fun action =>
      let actionParams := String.intercalate ", " (action.parameters.map (fun p => p.swiftType))
      let returnType := if action.returnType ≠ "Void" then " -> " ++ action.returnType else " -> Void"
      let asyncKeyword := if action.isAsync then " async" else ""
      "        " ++ action.name ++ ": @escaping (" ++ actionParams ++ ")" ++
        asyncKeyword ++ returnType)
  joinNL
    ([ "    public init(", String.intercalate ",\n" params, "    ) \x7b" ] ++
      component.properties.map initPropAssign ++
      component.actions.map (fun action =>
        "        self." ++ action.name ++ " = " ++ action.name) ++
      [ "    \x7d" ])

/-- Embeds `SwiftComponentGenerator.generateAsyncInitializer` (the variant
accepting an asynchronous `() async -> Void` action). -/
def generateAsyncInitializer (component : ParsedComponent) : String :=
  let params := component.properties.map initPropParam ++
    [ "        action: @escaping () async -> Void" ]
  joinNL
    ([ "    /// Async action initializer", "    public init("
     , String.intercalate ",\n" params, "    ) \x7b" ] ++
      component.properties.map initPropAssign ++
      [ "        self.action = action", "    \x7d" ])

/-- Embeds `SwiftComponentGenerator.generateSyncInitializer` (the variant
accepting a synchronous `() -> Void` action, wrapped into a `Task`). -/
def generateSyncInitializer (component : ParsedComponent) : String :=
  let params := component.properties.map initPropParam ++
    [ "        action: @escaping () -> Void" ]
  joinNL
    ([ "    /// Synchronous action initializer", "    public init("
     , String.intercalate ",\n" params, "    ) \x7b" ] ++
      component.properties.map initPropAssign ++
      [ "        self.action = \x7b"
      , "            Task \x7b action() \x7d"
      , "        \x7d"
      , "    \x7d" ])

/-- Embeds `SwiftComponentGenerator.generateStyling`. -/
def generateStyling (component : ParsedComponent) (indent : String) : String :=
  let style := component.style
  joinNL
    ((if jsTruthyS style.font then
        [ indent ++ ".font(." ++ style.font.getD "" ++ ")" ] else []) ++
     (if jsTruthyS style.fontWeight then
        [ indent ++ ".fontWeight(." ++ style.fontWeight.getD "" ++ ")" ] else []) ++
     (if jsTruthyS style.foregroundColor then
        [ indent ++ ".foregroundStyle(." ++ style.foregroundColor.getD "" ++ ")" ] else []) ++
     [ indent ++ ".padding(.vertical, " ++ jsNumToString style.padding.top ++ ")"
     , indent ++ ".padding(.horizontal, " ++ jsNumToString style.padding.leading ++ ")" ] ++
     (if jsTruthyS style.backgroundColor then
        [ indent ++ ".background(." ++ style.backgroundColor.getD "" ++ ")" ] else []) ++
     (if jsTruthyN style.cornerRadius then
        [ indent ++ ".clipShape(RoundedRectangle(cornerRadius: " ++
            jsNumToString (style.cornerRadius.getD 0) ++ "))" ] else []) ++
     (if jsTruthyS style.borderColor && jsTruthyN style.borderWidth then
        [ indent ++ ".overlay("
        , indent ++ "    RoundedRectangle(cornerRadius: " ++
            jsNumToString (style.cornerRadius.getD 0) ++ ")"
        , indent ++ "        .strokeBorder(." ++ style.borderColor.getD "" ++
            ", lineWidth: " ++ jsNumToString (style.borderWidth.getD 0) ++ ")"
        , indent ++ ")" ] else []) ++
     (if jsTruthyS style.maxWidth then
        [ indent ++ ".frame(maxWidth: ." ++ style.maxWidth.getD "" ++ ")" ] else []) ++
     (if jsTruthyN style.minHeight then
        [ indent ++ ".frame(minHeight: " ++ jsNumToString (style.minHeight.getD 0) ++ ")" ]
      else []))

/-- Embeds `SwiftComponentGenerator.generateBody`. Note the source reads the
styling block's padding via `style.padding`, an always-truthy object, so the
two padding modifiers are unconditional inside `generateStyling`. -/
def generateBody (component : ParsedComponent) : String :=
  let indent := "        "
  let buttonOpen : List String :=
    match component.actions with
    | a :: _ =>
        [ indent ++ "Button \x7b" ] ++
        (if component.hasAsyncAction then [ indent ++ "    handleAction()" ]
         else [ indent ++ "    " ++ a.name ++ "()" ]) ++
        [ indent ++ "\x7d label: \x7b" ]
    | [] => []
  let iconProp := component.properties.find? (fun p => p.name == "icon" || p.name == "iconName")
  let titleProp := component.properties.find? (fun p => p.name == "title" || p.name == "text")
  let messageProp := component.properties.find? (fun p => p.name == "message")
  let content : List String :=
    if component.hasLoadingState then
      [ indent ++ "    ZStack \x7b" ] ++
      (match iconProp with
       | some ip =>
           [ indent ++ "        Image(systemName: " ++ ip.name ++ ")"
           , indent ++ "            .opacity((isLoading || isPerformingAction) ? 0 : 1)" ]
       | none =>
           match titleProp with
           | some tp =>
               [ indent ++ "        Text(" ++ tp.name ++ ")"
               , indent ++ "            .opacity((isLoading || isPerformingAction) ? 0 : 1)" ]
           | none => []) ++
      [ ""
      , indent ++ "        if isLoading || isPerformingAction \x7b"
      , indent ++ "            ProgressView()"
      , indent ++ "                .progressViewStyle(CircularProgressViewStyle())"
      , indent ++ "        \x7d"
      , indent ++ "    \x7d" ]
    else
      match iconProp with
      | some ip => [ indent ++ "    Image(systemName: " ++ ip.name ++ ")" ]
      | none =>
          match messageProp with
          | some mp => [ indent ++ "    Text(" ++ mp.name ++ ")" ]
          | none =>
              match titleProp with
              | some tp => [ indent ++ "    Text(" ++ tp.name ++ ")" ]
              | none => []
  let closeBtn : List String :=
    if component.actions.length > 0 then
      [ indent ++ "\x7d", indent ++ ".buttonStyle(.plain)" ]
    else []
  let statesTail : List String :=
    if component.hasLoadingState then
      [ indent ++ ".disabled(isLoading || isPerformingAction)"
      , indent ++ ".opacity((isLoading || isPerformingAction) ? 0.6 : 1.0)" ]
    else []
  joinNL (buttonOpen ++ content ++ [ generateStyling component (indent ++ "    ") ] ++
    closeBtn ++ statesTail)

/-- Embeds `SwiftComponentGenerator.generateActionHandler`. -/
def generateActionHandler : String :=
  joinNL
    [ "    private func handleAction() \x7b"
    , "        Task \x7b"
    , "            isPerformingAction = true"
    , "            await action()"
    , "            isPerformingAction = false"
    , "        \x7d"
    , "    \x7d" ]

/-- One preview parameter: the if-chain of `generatePreview`'s property
loop; branches that push no parameter are `none`. -/
def previewParam (component : ParsedComponent) (prop : ParsedProperty) : Option String :=
  let isBinding := prop.type.startsWith "Binding<"
  if isBinding then
    (if prop.swiftType == "Bool" then some (prop.name ++ ": $previewBool")
     else some (prop.name ++ ": $previewText"))
  else if prop.name == "title" || prop.name == "text" then
    some (prop.name ++ ": \"" ++ component.name ++ "\"")
  else if prop.name == "message" then
    some (prop.name ++ ": \"This is a " ++ prop.name ++ "\"")
  else if prop.name == "type" then some (prop.name ++ ": \"info\"")
  else if prop.name == "status" then some (prop.name ++ ": \"success\"")
  else if prop.name == "icon" || prop.name == "iconName" || prop.name == "systemIcon" then
    some (prop.name ++ ": \"star.fill\"")
  else if prop.name == "description" && prop.type == "String" && prop.required then
    some (prop.name ++ ": \"Description text\"")
  else if prop.name == "label" && !prop.required then
    some (prop.name ++ ": \"Button\"")
  else if prop.name == "errorMessage" || prop.name == "subtitle" || prop.name == "description" then
    some (prop.name ++ ": nil")
  else if prop.name == "options" && prop.swiftType.startsWith "[" then
    some (prop.name ++ ": [\"Option 1\", \"Option 2\", \"Option 3\"]")
  else if prop.type == "String" && prop.required then
    some (prop.name ++ ": \"" ++ prop.name ++ "\"")
  else if prop.type == "String?" && !prop.required then none
  else if prop.type == "Bool" && prop.required then some (prop.name ++ ": false")
  else if !prop.required && prop.defaultValue.isSome then none
  else none

/-- Embeds `SwiftComponentGenerator.generatePreview`. -/
def generatePreview (component : ParsedComponent) : String :=
  let bindingProps := component.properties.filter (fun p => p.type.startsWith "Binding<")
  let stateVars : List String :=
    if bindingProps.length > 0 then
      let hasStringBinding := bindingProps.any (fun p => p.swiftType == "String")
      let hasBoolBinding := bindingProps.any (fun p => p.swiftType == "Bool")
      (if hasStringBinding then [ "    @Previewable @State var previewText = \"\"" ] else []) ++
      (if hasBoolBinding then [ "    @Previewable @State var previewBool = false" ] else [])
    else []
  let previewParams := component.properties.filterMap (previewParam component)
  let paramsStr := String.intercalate ", " previewParams
  let callLines : List String :=
    if component.hasAsyncAction then
      [ "        " ++ component.name ++ "(" ++ paramsStr ++ ") \x7b"
      , "            // Async action"
      , "        \x7d" ]
    else if component.actions.length > 0 then
      [ "        " ++ component.name ++ "(" ++ paramsStr ++ ") \x7b"
      , "            print(\"Action triggered\")"
      , "        \x7d" ]
    else
      [ "        " ++ component.name ++ "(" ++ paramsStr ++ ")" ]
  joinNL
    ([ "#Preview(\"" ++ component.name ++ "\") \x7b" ] ++ stateVars ++
     [ "    VStack(spacing: 20) \x7b" ] ++ callLines ++
     [ "    \x7d", "    .padding()", "\x7d" ])

/-- Embeds the line list built by `SwiftComponentGenerator.generate` before
the final `join('\n')`. -/
def generateLines (component : ParsedComponent) (sourceFile timestamp : String) :
    List String :=
  [ createHeader component.name sourceFile timestamp, "import SwiftUI" ] ++
  (if component.category == "forms" || component.hasAsyncAction then
     [ "import CuppaCore" ] else []) ++
  [ "" ] ++
  [ "/// " ++ component.description, "///", "/// Features:" ] ++
  (if component.hasAsyncAction then
     [ "/// - Async action support", "/// - Synchronous action support" ] else []) ++
  (if component.hasLoadingState then
     [ "/// - Loading state with spinner", "/// - Automatic state management" ] else []) ++
  (component.properties.filterMap (fun prop =>
     if prop.description ≠ prop.name then some ("/// - " ++ prop.description) else none)) ++
  [ "///", "/// Example:", "/// ```swift", generateExampleUsage component, "/// ```" ] ++
  [ "public struct " ++ component.name ++ ": View \x7b"
  , "    // MARK: - Properties", "" ] ++
  (component.properties.map (fun prop =>
     let isBinding := prop.type.startsWith "Binding<"
     let bindingPx := if isBinding then "@Binding " else ""
     let varLet := if isBinding then "var" else "let"
     "    " ++ bindingPx ++ varLet ++ " " ++ prop.name ++ ": " ++ prop.swiftType)) ++
  (if component.hasAsyncAction then
     [ "    @State private var isPerformingAction = false" ] else []) ++
  (component.actions.map (fun action =>
     let params := String.intercalate ", " (action.parameters.map (fun p => p.swiftType))
     let returnType := if action.returnType ≠ "Void" then " -> " ++ action.returnType
       else " -> Void"
     let asyncKeyword := if action.isAsync then " async" else ""
     "    let " ++ action.name ++ ": (" ++ params ++ ")" ++ asyncKeyword ++ returnType)) ++
  [ "", "    // MARK: - Initialization", "" ] ++
  (if component.hasAsyncAction then
     [ generateAsyncInitializer component, "", generateSyncInitializer component, "" ]
   else [ generateInitializer component, "" ]) ++
  [ "    // MARK: - Body", "", "    public var body: some View \x7b"
  , generateBody component, "    \x7d" ] ++
  (if component.hasAsyncAction then
     [ "", "    // MARK: - Actions", "", generateActionHandler ] else []) ++
  [ "\x7d", "" ] ++
  [ generatePreview component ]

/-- Embeds `SwiftComponentGenerator.generate`. -/
def generate (component : ParsedComponent) (sourceFile timestamp : String) : String :=
  joinNL (generateLines component sourceFile timestamp)

/-- The lines `generate` pushes before its initializer branch (used to
state where the initializer variants sit in the output). -/
def linesBeforeInit (component : ParsedComponent) (sourceFile timestamp : String) :
    List String :=
  [ createHeader component.name sourceFile timestamp, "import SwiftUI" ] ++
  (if component.category == "forms" || component.hasAsyncAction then
     [ "import CuppaCore" ] else []) ++
  [ "" ] ++
  [ "/// " ++ component.description, "///", "/// Features:" ] ++
  (if component.hasAsyncAction then
     [ "/// - Async action support", "/// - Synchronous action support" ] else []) ++
  (if component.hasLoadingState then
     [ "/// - Loading state with spinner", "/// - Automatic state management" ] else []) ++
  (component.properties.filterMap (fun prop =>
     if prop.description ≠ prop.name then some ("/// - " ++ prop.description) else none)) ++
  [ "///", "/// Example:", "/// ```swift", generateExampleUsage component, "/// ```" ] ++
  [ "public struct " ++ component.name ++ ": View \x7b"
  , "    // MARK: - Properties", "" ] ++
  (component.properties.map (fun prop =>
     let isBinding := prop.type.startsWith "Binding<"
     let bindingPx := if isBinding then "@Binding " else ""
     let varLet := if isBinding then "var" else "let"
     "    " ++ bindingPx ++ varLet ++ " " ++ prop.name ++ ": " ++ prop.swiftType)) ++
  (if component.hasAsyncAction then
     [ "    @State private var isPerformingAction = false" ] else []) ++
  (component.actions.map (fun action =>
     let params := String.intercalate ", " (action.parameters.map (fun p => p.swiftType))
     let returnType := if action.returnType ≠ "Void" then " -> " ++ action.returnType
       else " -> Void"
     let asyncKeyword := if action.isAsync then " async" else ""
     "    let " ++ action.name ++ ": (" ++ params ++ ")" ++ asyncKeyword ++ returnType)) ++
  [ "", "    // MARK: - Initialization", "" ]

/-- The lines `generate` pushes after its initializer branch. -/
def linesAfterInit (component : ParsedComponent) : List String :=
  [ "    // MARK: - Body", "", "    public var body: some View \x7b"
  , generateBody component, "    \x7d" ] ++
  (if component.hasAsyncAction then
     [ "", "    // MARK: - Actions", "", generateActionHandler ] else []) ++
  [ "\x7d", "" ] ++
  [ generatePreview component ]

end SwiftComponentGenerator

end ComponentGen

/-! ## Concrete input documents used by witnesses and counterexamples -/

/-- A plugin spec named `Auth` declaring one provider. -/
def authPluginSpec : PluginGen.PluginSpec :=
  { name := "Auth"
  , identifier := "com.example.auth"
  , version := "1.0.0"
  , description := none
  , author := none
  , dependencies := none
  , configuration := none
  , methods := none
  , models := none
  , providers := some [ { name := "ConsoleAuthProvider", description := none
                        , protocol := none } ] }

/-- A plugin spec named `Cache` declaring no providers. -/
def cachePluginSpec : PluginGen.PluginSpec :=
  { name := "Cache"
  , identifier := "com.example.cache"
  , version := "2.0.0"
  , description := none
  , author := none
  , dependencies := none
  , configuration := none
  , methods := none
  , models := none
  , providers := none }

/-- The scenario-A schema: object root, title `User`, required `id`. -/
def userSchema : ModelGen.JSONSchema :=
  { title := some "User"
  , description := none
  , type := "object"
  , properties := some
      [ ("id", .mk (.one "string") none none none none none)
      , ("age", .mk (.one "integer") none none none none none) ]
  , required := some ["id"] }

/-- An object schema whose `xs` property is an array with no `items`. -/
def arrayNoItemsSchema : ModelGen.JSONSchema :=
  { title := some "M"
  , description := none
  , type := "object"
  , properties := some [ ("xs", .mk (.one "array") none none none none none) ]
  , required := none }

/-- An object schema whose `xs` property is an array of strings. -/
def stringArraySchema : ModelGen.JSONSchema :=
  { title := some "M"
  , description := none
  , type := "object"
  , properties := some
      [ ("xs", .mk (.one "array") none none
          (some (.mk (.one "string") none none none none none)) none none) ]
  , required := none }

/-- A cookie-location parameter. -/
def demoCookieParam : ApiGen.OpenAPIParameter :=
  { name := "session"
  , loc := ApiGen.ParamLocation.cookie
  , description := none
  , required := some true
  , schema := .mk (some "string") none none none none none none }

/-- A query-location parameter. -/
def demoQueryParam : ApiGen.OpenAPIParameter :=
  { name := "limit"
  , loc := ApiGen.ParamLocation.query
  , description := none
  , required := none
  , schema := .mk (some "integer") none none none none none none }

/-- A `get` operation lacking an `operationId`, declaring a query and a
cookie parameter. -/
def demoOperation : ApiGen.OpenAPIOperation :=
  { operationId := none
  , summary := none
  , description := none
  , tags := none
  , parameters := some [demoQueryParam, demoCookieParam]
  , requestBody := none
  , responses := [] }

/-- A paths record with one path carrying the demo operation and a
path-level cookie parameter. -/
def demoPaths : List (String × ApiGen.OpenAPIPath) :=
  [ ("/users/\x7bid\x7d",
     { get := some demoOperation
     , post := none, put := none, patch := none, delete := none
     , parameters := some [demoCookieParam] }) ]

/-- A component spec with one `async`-typed action. -/
def demoAsyncSpec : ComponentGen.ComponentSpec :=
  { component := "SaveButton"
  , category := "buttons"
  , description := none
  , properties := []
  , style := none
  , states := none
  , actions := some [ { name := "onSave", type := "async", parameters := []
                      , returnType := none } ]
  , slots := none }

/-- A component spec whose only action is synchronous. -/
def demoSyncSpec : ComponentGen.ComponentSpec :=
  { component := "CloseButton"
  , category := "buttons"
  , description := none
  , properties := []
  , style := none
  , states := none
  , actions := some [ { name := "onClose", type := "sync", parameters := []
                      , returnType := none } ]
  , slots := none }

/-- A small parsed theme with one color and one spacing entry. -/
def demoTheme : ThemeGen.ParsedTheme :=
  { name := "Brand"
  , colors := [ { name := "primary", value := "#336699", description := none } ]
  , typography :=
      { fontFamilies := [], fontSizes := [], fontWeights := []
      , lineHeights := [], letterSpacing := [] }
  , spacing := [ { name := "small", value := some 8, unit := "px" } ]
  , borderRadius := []
  , shadows := []
  , breakpoints := [] }

/-- A schema whose root type is `string`, not `object`. -/
def nonObjectSchema : ModelGen.JSONSchema :=
  { title := none, description := none, type := "string"
  , properties := none, required := none }

/-- An object schema with no `title`. -/
def untitledSchema : ModelGen.JSONSchema :=
  { title := none, description := none, type := "object"
  , properties := none, required := none }

/-! ## Theorems -/

/-- On an object root, `parse` returns exactly the model record the source
constructs. -/
lemma modelParse_ok_eq (schema : ModelGen.JSONSchema) (m : ModelGen.ParsedModel)
    (h : ModelGen.JSONSchemaParser.parse schema = Except.ok m) :
    m = { name := jsStrOr schema.title "UnnamedModel"
        , description := schema.description
        , properties := ModelGen.JSONSchemaParser.parseProperties
            (schema.properties.getD []) (schema.required.getD []) } := by
  unfold ModelGen.JSONSchemaParser.parse at h
  split at h
  · exact absurd h (by simp)
  · exact (Except.ok.inj h).symm

/-- The parsed properties are the input property entries, each mapped by
`parseProperty` with its membership in `required`. -/
lemma modelParse_ok_properties (schema : ModelGen.JSONSchema)
    (m : ModelGen.ParsedModel)
    (h : ModelGen.JSONSchemaParser.parse schema = Except.ok m) :
    m.properties = (schema.properties.getD []).map (fun np =>
      ModelGen.JSONSchemaParser.parseProperty np.1 np.2
        ((schema.required.getD []).contains np.1)) := by
  rw [modelParse_ok_eq schema m h]
  rfl

/-- Claim C1, counterexample: on the plugin spec named `Auth`, the parsed
plugin's `name` is `CuppaAuthPlugin`, not `AuthPlugin` as the claim's
`<Name>Plugin` rule demands. -/
theorem claim_C1_counterexample :
    (PluginGen.PluginSpecParser.parse authPluginSpec).name = "CuppaAuthPlugin" ∧
    (PluginGen.PluginSpecParser.parse authPluginSpec).name ≠
      authPluginSpec.name ++ "Plugin" := by
  constructor
  · rfl
  · decide

/-- Claim C1 as amended: `PluginSpecParser.parse` derives `name` as
`Cuppa<Name>Plugin` (not `<Name>Plugin`), `managerName` as `<Name>Manager`,
and `protocolName` as `<Name>Provider` exactly when the spec declares at
least one provider, absent otherwise. -/
theorem claim_C1_amended (spec : PluginGen.PluginSpec) :
    (PluginGen.PluginSpecParser.parse spec).name = "Cuppa" ++ spec.name ++ "Plugin" ∧
    (PluginGen.PluginSpecParser.parse spec).managerName = spec.name ++ "Manager" ∧
    (PluginGen.PluginSpecParser.parse spec).protocolName =
      (if (spec.providers.getD []).length > 0 then some (spec.name ++ "Provider")
       else none) := by
  refine ⟨rfl, rfl, ?_⟩
  cases h : spec.providers with
  | none => simp [PluginGen.PluginSpecParser.parse, h]
  | some l => simp [PluginGen.PluginSpecParser.parse, h]

/-- Claim C2: for an object-rooted schema, each parsed property's
`optional` flag is true exactly when the property's name is absent from the
schema's `required` list or the property carries `nullable: true`. -/
theorem claim_C2_optional_iff (schema : ModelGen.JSONSchema)
    (m : ModelGen.ParsedModel)
    (h : ModelGen.JSONSchemaParser.parse schema = Except.ok m) :
    List.Forall₂
      (fun (np : String × ModelGen.JSONSchemaProperty) (q : ModelGen.ParsedProperty) =>
        q.name = np.1 ∧
        (q.optional = true ↔
          (np.1 ∉ schema.required.getD [] ∨ np.2.nullable = some true)))
      (schema.properties.getD []) m.properties := by
  rw [modelParse_ok_properties schema m h]
  rw [List.forall₂_map_right_iff, List.forall₂_same]
  intro np _
  refine ⟨rfl, ?_⟩
  simp [ModelGen.JSONSchemaParser.parseProperty]

/-- Claim C2, witness at the scenario-A `User` schema. -/
theorem claim_C2_witness :
    ∃ m, ModelGen.JSONSchemaParser.parse userSchema = Except.ok m ∧
      List.Forall₂
        (fun (np : String × ModelGen.JSONSchemaProperty) (q : ModelGen.ParsedProperty) =>
          q.name = np.1 ∧
          (q.optional = true ↔
            (np.1 ∉ userSchema.required.getD [] ∨ np.2.nullable = some true)))
        (userSchema.properties.getD []) m.properties :=
  ⟨_, rfl, claim_C2_optional_iff userSchema _ rfl⟩

/-- Claim C4, counterexample: on an object schema whose `xs` property has
`type: "array"` and no `items`, the parsed property has `isArray = true`
and `type = "array"`, so an `isArray` property's type can be the string
`"array"` itself, contradicting the claim. -/
theorem claim_C4_counterexample :
    (ModelGen.JSONSchemaParser.parse arrayNoItemsSchema).map
      (fun m => m.properties.map (fun q => (q.isArray, q.type))) =
      Except.ok [(true, "array")] := rfl

/-- Claim C4 as amended: an `isArray` property's `type` is the type resolved
from the property's `items` when `items` is declared, and is the literal
string `"array"` when `items` is absent (in which case it can be `"array"`,
which the original claim ruled out). -/
theorem claim_C4_amended (schema : ModelGen.JSONSchema) (m : ModelGen.ParsedModel)
    (h : ModelGen.JSONSchemaParser.parse schema = Except.ok m) :
    ∀ q ∈ m.properties, q.isArray = true →
      ∃ np ∈ schema.properties.getD [], np.1 = q.name ∧
        q.type = (match np.2.items with
                  | some it => ModelGen.JSONSchemaParser.resolveType it
                  | none => "array") := by
  intro q hq harr
  rw [modelParse_ok_properties schema m h] at hq
  obtain ⟨np, hnp, hqe⟩ := List.mem_map.mp hq
  refine ⟨np, hnp, ?_, ?_⟩
  · rw [← hqe]; rfl
  · subst hqe
    simp only [ModelGen.JSONSchemaParser.parseProperty] at harr ⊢
    have harr2 : (ModelGen.JSONSchemaParser.resolveType np.2 == "array") = true := harr
    rw [beq_iff_eq] at harr2
    cases hit : np.2.items with
    | none => simpa [hit] using harr2
    | some it => simp [hit, harr2]

/-- Claim C4, witness for the amended statement at an array-of-strings
schema. -/
theorem claim_C4_witness :
    ∃ m, ModelGen.JSONSchemaParser.parse stringArraySchema = Except.ok m ∧
      ∀ q ∈ m.properties, q.isArray = true →
        ∃ np ∈ stringArraySchema.properties.getD [], np.1 = q.name ∧
          q.type = (match np.2.items with
                    | some it => ModelGen.JSONSchemaParser.resolveType it
                    | none => "array") :=
  ⟨_, rfl, claim_C4_amended stringArraySchema _ rfl⟩

/-- Claim C8: the model parser fails with the unsupported-schema error on
every non-object root and returns a parsed model on every object root. -/
theorem claim_C8_object_root (schema : ModelGen.JSONSchema) :
    (schema.type ≠ "object" →
      ModelGen.JSONSchemaParser.parse schema =
        Except.error "Only object schemas are supported for model generation") ∧
    (schema.type = "object" →
      ∃ m, ModelGen.JSONSchemaParser.parse schema = Except.ok m) := by
  constructor
  · intro h
    simp [ModelGen.JSONSchemaParser.parse, h]
  · intro h
    refine ⟨{ name := jsStrOr schema.title "UnnamedModel"
            , description := schema.description
            , properties := ModelGen.JSONSchemaParser.parseProperties
                (schema.properties.getD []) (schema.required.getD []) }, ?_⟩
    simp [ModelGen.JSONSchemaParser.parse, h]

/-- Claim C8, witness: a `string`-rooted schema errors, an `object`-rooted
schema parses. -/
theorem claim_C8_witness :
    ModelGen.JSONSchemaParser.parse nonObjectSchema =
      Except.error "Only object schemas are supported for model generation" ∧
    ∃ m, ModelGen.JSONSchemaParser.parse untitledSchema = Except.ok m :=
  ⟨(claim_C8_object_root nonObjectSchema).1 (by decide),
   (claim_C8_object_root untitledSchema).2 rfl⟩

/-- Claim C10: an object-rooted schema with no `title` parses successfully
to a model named `UnnamedModel`. -/
theorem claim_C10_unnamed (schema : ModelGen.JSONSchema)
    (h1 : schema.type = "object") (h2 : schema.title = none) :
    ∃ m, ModelGen.JSONSchemaParser.parse schema = Except.ok m ∧
      m.name = "UnnamedModel" := by
  refine ⟨{ name := jsStrOr schema.title "UnnamedModel"
          , description := schema.description
          , properties := ModelGen.JSONSchemaParser.parseProperties
              (schema.properties.getD []) (schema.required.getD []) }, ?_, ?_⟩
  · simp [ModelGen.JSONSchemaParser.parse, h1]
  · simp [jsStrOr, h2]

/-- Claim C10, witness at a concrete untitled object schema. -/
theorem claim_C10_witness :
    ∃ m, ModelGen.JSONSchemaParser.parse untitledSchema = Except.ok m ∧
      m.name = "UnnamedModel" :=
  claim_C10_unnamed untitledSchema rfl rfl

/-- The four parameter locations partition any parameter list: the three
surfaced buckets plus the cookie-location parameters account for every
declared parameter. -/
lemma loc_filter_partition (l : List ApiGen.OpenAPIParameter) :
    (l.filter (fun p => p.loc == ApiGen.ParamLocation.path)).length +
    (l.filter (fun p => p.loc == ApiGen.ParamLocation.query)).length +
    (l.filter (fun p => p.loc == ApiGen.ParamLocation.header)).length +
    (l.filter (fun p => p.loc == ApiGen.ParamLocation.cookie)).length = l.length := by
  induction l with
  | nil => rfl
  | cons a t ih => cases h : a.loc <;> simp [List.filter_cons, h] <;> omega

/-- Claim C3: every parsed endpoint's three parameter buckets are exactly
the location-filtered merged parameter list (path-level then
operation-level), and together with the cookie-location parameters they
count up to all merged parameters — so no cookie parameter reaches any
bucket. -/
theorem claim_C3_cookie_dropped (paths : List (String × ApiGen.OpenAPIPath))
    (e : ApiGen.ParsedEndpoint)
    (he : e ∈ ApiGen.OpenAPIParser.parseEndpoints paths) :
    ∃ all : List ApiGen.OpenAPIParameter,
      e.pathParams = (all.filter (fun p => p.loc == ApiGen.ParamLocation.path)).map
        ApiGen.OpenAPIParser.parseParameter ∧
      e.queryParams = (all.filter (fun p => p.loc == ApiGen.ParamLocation.query)).map
        ApiGen.OpenAPIParser.parseParameter ∧
      e.headerParams = (all.filter (fun p => p.loc == ApiGen.ParamLocation.header)).map
        ApiGen.OpenAPIParser.parseParameter ∧
      e.pathParams.length + e.queryParams.length + e.headerParams.length +
        (all.filter (fun p => p.loc == ApiGen.ParamLocation.cookie)).length =
        all.length := by
  unfold ApiGen.OpenAPIParser.parseEndpoints at he
  obtain ⟨pp, _, hmem⟩ := List.mem_flatMap.mp he
  obtain ⟨method, _, hsome⟩ := List.mem_filterMap.mp hmem
  obtain ⟨op, _, rfl⟩ := Option.map_eq_some'.mp hsome
  refine ⟨pp.2.parameters.getD [] ++ op.parameters.getD [], rfl, rfl, rfl, ?_⟩
  simp only [ApiGen.OpenAPIParser.parseOperation, List.length_map]
  exact loc_filter_partition _

/-- Claim C5: when an operation lacks an `operationId` the parser derives
it as the lowercased method followed by the capitalized non-empty path
segments, a `{param}` segment becoming `By` plus the capitalized parameter
name; on a `get` of `/users/{id}` this is `getUsersById`. -/
theorem claim_C5_operationId (method path : String) (op : ApiGen.OpenAPIOperation)
    (pp : List ApiGen.OpenAPIParameter) (h : op.operationId = none) :
    (ApiGen.OpenAPIParser.parseOperation method path op pp).operationId =
      jsToLower method ++ String.join
        (((splitOnChar '/' path.data).filter (fun s => s ≠ [])).map (fun seg =>
          if seg.head? == some '\x7b' && seg.getLast? == some '\x7d' then
            "By" ++ jsCapitalize (String.mk (seg.drop 1).dropLast)
          else jsCapitalize (String.mk seg))) ∧
    (ApiGen.OpenAPIParser.parseOperation "get" "/users/\x7bid\x7d" op pp).operationId =
      "getUsersById" := by
  constructor
  · simp [ApiGen.OpenAPIParser.parseOperation, h, jsStrOr,
      ApiGen.OpenAPIParser.generateOperationId, ApiGen.OpenAPIParser.capitalize]
  · simp only [ApiGen.OpenAPIParser.parseOperation, h, jsStrOr]
    rfl

/-- Claim C3, witness at the demo document whose cookie parameters appear
at both path and operation level. -/
theorem claim_C3_witness :
    ∃ all : List ApiGen.OpenAPIParameter,
      (ApiGen.OpenAPIParser.parseOperation "get" "/users/\x7bid\x7d" demoOperation
        [demoCookieParam]).pathParams =
        (all.filter (fun p => p.loc == ApiGen.ParamLocation.path)).map
          ApiGen.OpenAPIParser.parseParameter ∧
      (ApiGen.OpenAPIParser.parseOperation "get" "/users/\x7bid\x7d" demoOperation
        [demoCookieParam]).queryParams =
        (all.filter (fun p => p.loc == ApiGen.ParamLocation.query)).map
          ApiGen.OpenAPIParser.parseParameter ∧
      (ApiGen.OpenAPIParser.parseOperation "get" "/users/\x7bid\x7d" demoOperation
        [demoCookieParam]).headerParams =
        (all.filter (fun p => p.loc == ApiGen.ParamLocation.header)).map
          ApiGen.OpenAPIParser.parseParameter ∧
      (ApiGen.OpenAPIParser.parseOperation "get" "/users/\x7bid\x7d" demoOperation
        [demoCookieParam]).pathParams.length +
        (ApiGen.OpenAPIParser.parseOperation "get" "/users/\x7bid\x7d" demoOperation
          [demoCookieParam]).queryParams.length +
        (ApiGen.OpenAPIParser.parseOperation "get" "/users/\x7bid\x7d" demoOperation
          [demoCookieParam]).headerParams.length +
        (all.filter (fun p => p.loc == ApiGen.ParamLocation.cookie)).length =
        all.length :=
  claim_C3_cookie_dropped demoPaths _ (by decide)

/-- Claim C5, witness: the demo `get` operation on `/users/{id}` receives
the derived operation id `getUsersById`. -/
theorem claim_C5_witness :
    (ApiGen.OpenAPIParser.parseOperation "get" "/users/\x7bid\x7d" demoOperation
      []).operationId = "getUsersById" :=
  (claim_C5_operationId "get" "/users/\x7bid\x7d" demoOperation [] rfl).2

/-- Taking while a predicate holds passes over a prefix on which it holds
everywhere. -/
lemma takeWhile_append_all {α} (p : α → Bool) (l1 l2 : List α)
    (h : ∀ c ∈ l1, p c = true) :
    (l1 ++ l2).takeWhile p = l1 ++ l2.takeWhile p := by
  induction l1 with
  | nil => simp
  | cons a t ih =>
      have ha := h a (List.mem_cons_self a t)
      simp only [List.cons_append, List.takeWhile_cons, ha, if_true]
      rw [ih (fun c hc => h c (List.mem_cons_of_mem a hc))]

/-- Dropping while a predicate holds consumes a prefix on which it holds
everywhere. -/
lemma dropWhile_append_all {α} (p : α → Bool) (l1 l2 : List α)
    (h : ∀ c ∈ l1, p c = true) :
    (l1 ++ l2).dropWhile p = l2.dropWhile p := by
  induction l1 with
  | nil => simp
  | cons a t ih =>
      have ha := h a (List.mem_cons_self a t)
      simp only [List.cons_append, List.dropWhile_cons, ha, if_true]
      exact ih (fun c hc => h c (List.mem_cons_of_mem a hc))

/-- A list on which the predicate always holds is taken whole. -/
lemma takeWhile_all {α} (p : α → Bool) (l : List α) (h : ∀ c ∈ l, p c = true) :
    l.takeWhile p = l := by
  have := takeWhile_append_all p l [] h
  simpa using this

/-- A list on which the predicate always holds drops to nothing. -/
lemma dropWhile_all {α} (p : α → Bool) (l : List α) (h : ∀ c ∈ l, p c = true) :
    l.dropWhile p = [] := by
  have := dropWhile_append_all p l [] h
  simpa using this

/-- A decimal digit is in the `[\d.]` class. -/
lemma digit_isDigitDot {c : Char} (h : c.isDigit = true) :
    ThemeGen.isDigitDot c = true := by
  simp [ThemeGen.isDigitDot, h]

/-- A decimal digit is not the dot character. -/
lemma digit_ne_dot {c : Char} (h : c.isDigit = true) : c ≠ '.' := by
  intro he
  subst he
  exact absurd h (by decide)

/-- A unit character (letter or percent) is outside the `[\d.]` class. -/
lemma unitChar_not_digitDot {c : Char} (h : ThemeGen.isUnitChar c = true) :
    ThemeGen.isDigitDot c = false := by
  simp only [ThemeGen.isUnitChar, Bool.or_eq_true, decide_eq_true_eq] at h
  simp only [ThemeGen.isDigitDot, Bool.or_eq_false_iff, decide_eq_false_iff_not]
  rcases h with h | rfl
  · simp only [Char.isAlpha, Char.isUpper, Char.isLower, Bool.or_eq_true,
      Bool.and_eq_true, decide_eq_true_eq] at h
    constructor
    · simp only [Char.isDigit, Bool.and_eq_false_iff, decide_eq_false_iff_not]
      rcases h with ⟨h1, _⟩ | ⟨h1, _⟩
      · exact Or.inr (fun hle => absurd (UInt32.le_trans h1 hle) (by decide))
      · exact Or.inr (fun hle => absurd (UInt32.le_trans h1 hle) (by decide))
    · rintro rfl
      rcases h with ⟨h1, _⟩ | ⟨h1, _⟩
      · exact absurd h1 (by decide)
      · exact absurd h1 (by decide)
  · decide

/-- A decimal digit is not `parseFloat` whitespace. -/
lemma digit_not_ws {c : Char} (h : c.isDigit = true) :
    ThemeGen.jsWhitespace c = false := by
  simp only [ThemeGen.jsWhitespace, Bool.or_eq_false_iff, decide_eq_false_iff_not]
  refine ⟨⟨⟨⟨⟨?_, ?_⟩, ?_⟩, ?_⟩, ?_⟩, ?_⟩ <;> (rintro rfl; exact absurd h (by decide))

/-- A decimal digit is not a sign character. -/
lemma digit_ne_sign {c : Char} (h : c.isDigit = true) : c ≠ '-' ∧ c ≠ '+' := by
  refine ⟨?_, ?_⟩ <;> (rintro rfl; exact absurd h (by decide))

/-- `parseFloat` on the characters of a plain decimal numeral yields the
numeral's value. -/
lemma jsParseFloatL_numeral (ip fp : List Char) (hip : ip ≠ [])
    (hipd : ∀ c ∈ ip, c.isDigit = true) (hfpd : ∀ c ∈ fp, c.isDigit = true) :
    ThemeGen.jsParseFloatL (ThemeGen.decimalNumeral ip fp).data =
      some (ThemeGen.numeralVal ip fp) := by
  obtain ⟨a, ipt, rfl⟩ := List.exists_cons_of_ne_nil hip
  have had : a.isDigit = true := hipd a (List.mem_cons_self a ipt)
  have hsgn := digit_ne_sign had
  cases hfp : fp with
  | nil =>
      subst hfp
      have hdata : (ThemeGen.decimalNumeral (a :: ipt) []).data = a :: ipt := by
        unfold ThemeGen.decimalNumeral
        rw [if_pos rfl]
      rw [hdata]
      unfold ThemeGen.jsParseFloatL
      rw [List.dropWhile_cons, digit_not_ws had]
      simp only [Bool.false_eq_true, if_false, List.head?_cons]
      have hne1 : (some a == some '-') = false := by simp [hsgn.1]
      have hne2 : (some a == some '+') = false := by simp [hsgn.2]
      rw [hne1, hne2]
      simp only [Bool.or_self, Bool.false_eq_true, if_false]
      rw [takeWhile_all _ _ hipd, dropWhile_all _ _ hipd]
      simp [ThemeGen.numeralVal]
  | cons f ft =>
      rw [← hfp]
      have hfpne : fp ≠ [] := by simp [hfp]
      have hdata : (ThemeGen.decimalNumeral (a :: ipt) fp).data =
          (a :: ipt) ++ '.' :: fp := by
        unfold ThemeGen.decimalNumeral
        rw [if_neg hfpne]
      rw [hdata]
      unfold ThemeGen.jsParseFloatL
      rw [List.cons_append, List.dropWhile_cons, digit_not_ws had]
      simp only [Bool.false_eq_true, if_false, List.head?_cons]
      have hne1 : (some a == some '-') = false := by simp [hsgn.1]
      have hne2 : (some a == some '+') = false := by simp [hsgn.2]
      rw [hne1, hne2]
      simp only [Bool.or_self, Bool.false_eq_true, if_false]
      rw [← List.cons_append]
      rw [takeWhile_append_all _ _ _ hipd, dropWhile_append_all _ _ _ hipd]
      rw [List.takeWhile_cons, List.dropWhile_cons]
      simp only [show ('.' : Char).isDigit = false from rfl,
        Bool.false_eq_true, if_false]
      rw [takeWhile_all _ _ hfpd, dropWhile_all _ _ hfpd]
      simp [ThemeGen.numeralVal]

/-- `parseFloat` reads a number from any character list led by a digit. -/
lemma jsParseFloatL_isSome_of_digit (c : Char) (r : List Char)
    (h : c.isDigit = true) :
    (ThemeGen.jsParseFloatL (c :: r)).isSome = true := by
  have hsgn := digit_ne_sign h
  unfold ThemeGen.jsParseFloatL
  rw [List.dropWhile_cons, digit_not_ws h]
  simp only [Bool.false_eq_true, if_false, List.head?_cons]
  have hne1 : (some c == some '-') = false := by simp [hsgn.1]
  have hne2 : (some c == some '+') = false := by simp [hsgn.2]
  rw [hne1, hne2]
  simp only [Bool.or_self, Bool.false_eq_true, if_false]
  rw [List.takeWhile_cons]
  simp [h]

/-- Claim C6, counterexample: the input string `"."` has no leading numeric
portion (its `parseFloat` is `NaN`), yet `parseValue` does not fall back to
zero: the regex `^([\d.]+)([a-z%]*)$` accepts the lone dot and
`parseFloat(".")` is `NaN` (`none`), not `0`. -/
theorem claim_C6_counterexample :
    ThemeGen.hasLeadingNumeric "." = false ∧
    ThemeGen.DesignTokensParser.parseValue (.str ".") = (none, "px") ∧
    (none, "px") ≠ ((some (0 : ℚ)), "px") := by
  refine ⟨rfl, rfl, ?_⟩
  decide

/-- Claim C6 as amended: a bare number parses to itself with unit `px`; a
decimal numeral written immediately before a nonempty unit over `[a-z%]`
round-trips to its value and that unit; and a string with no leading
numeric portion falls back to `(0, "px")` without throwing provided its
first character is not a dot (a dot-led string such as `"."` can instead
match the regex and produce `NaN`). -/
theorem claim_C6_amended :
    (∀ q : ℚ, ThemeGen.DesignTokensParser.parseValue (.num q) = (some q, "px")) ∧
    (∀ ip fp : List Char, ∀ u : String, ip ≠ [] →
      (∀ c ∈ ip, c.isDigit = true) → (∀ c ∈ fp, c.isDigit = true) →
      u ≠ "" → (∀ c ∈ u.data, ThemeGen.isUnitChar c = true) →
      ThemeGen.DesignTokensParser.parseValue
          (.str (ThemeGen.decimalNumeral ip fp ++ u)) =
        (some (ThemeGen.numeralVal ip fp), u)) ∧
    (∀ s : String, ThemeGen.hasLeadingNumeric s = false →
      s.data.head? ≠ some '.' →
      ThemeGen.DesignTokensParser.parseValue (.str s) = (some 0, "px")) := by
  refine ⟨fun q => rfl, ?_, ?_⟩
  · intro ip fp u hip hipd hfpd hu hud
    have hnumd : ∀ c ∈ (ThemeGen.decimalNumeral ip fp).data,
        ThemeGen.isDigitDot c = true := by
      intro c hc
      unfold ThemeGen.decimalNumeral at hc
      split at hc
      · exact digit_isDigitDot (hipd c hc)
      · rcases List.mem_append.mp hc with hc | hc
        · exact digit_isDigitDot (hipd c hc)
        · rcases List.mem_cons.mp hc with rfl | hc
          · decide
          · exact digit_isDigitDot (hfpd c hc)
    have hnumne : (ThemeGen.decimalNumeral ip fp).data ≠ [] := by
      obtain ⟨a, ipt, rfl⟩ := List.exists_cons_of_ne_nil hip
      unfold ThemeGen.decimalNumeral
      split <;> simp
    obtain ⟨uc, ur, hue⟩ : ∃ c r, u.data = c :: r := by
      cases u with
      | mk d =>
          cases d with
          | nil => exact absurd rfl hu
          | cons c r => exact ⟨c, r, rfl⟩
    have hmem : uc ∈ u.data := by
      rw [hue]
      exact List.mem_cons_self uc ur
    have huc : ThemeGen.isUnitChar uc = true := hud uc hmem
    simp only [ThemeGen.DesignTokensParser.parseValue]
    rw [String.data_append, hue]
    rw [takeWhile_append_all _ _ _ hnumd, dropWhile_append_all _ _ _ hnumd]
    rw [List.takeWhile_cons, List.dropWhile_cons]
    rw [unitChar_not_digitDot huc]
    simp only [Bool.false_eq_true, if_false, List.append_nil]
    have hcond : (decide ¬(ThemeGen.decimalNumeral ip fp).data = [] &&
        (uc :: ur).all ThemeGen.isUnitChar) = true := by
      simp only [Bool.and_eq_true, decide_eq_true_eq, List.all_eq_true]
      refine ⟨hnumne, ?_⟩
      rw [← hue]
      exact hud
    rw [if_pos hcond]
    rw [jsParseFloatL_numeral ip fp hip hipd hfpd]
    simp only [List.isEmpty_cons, Bool.false_eq_true, if_false]
    have hmku : String.mk (uc :: ur) = u := by
      cases u with
      | mk d =>
          rw [show (String.mk d).data = d from rfl] at hue
          rw [hue]
    rw [hmku]
  · intro s hnum hdot
    simp only [ThemeGen.DesignTokensParser.parseValue]
    split
    · rename_i hcond
      exfalso
      simp only [Bool.and_eq_true, decide_eq_true_eq] at hcond
      obtain ⟨htw, _⟩ := hcond
      cases hsd : s.data with
      | nil =>
          rw [hsd] at htw
          exact htw rfl
      | cons c r =>
          rw [hsd] at htw
          rw [List.takeWhile_cons] at htw
          by_cases hc : ThemeGen.isDigitDot c = true
          · have hcdig : c.isDigit = true := by
              have hne : c ≠ '.' := by
                intro he
                apply hdot
                rw [hsd, he]
                rfl
              simp only [ThemeGen.isDigitDot, Bool.or_eq_true,
                decide_eq_true_eq] at hc
              rcases hc with hc | hc
              · exact hc
              · exact absurd hc hne
            have hsome := jsParseFloatL_isSome_of_digit c r hcdig
            rw [ThemeGen.hasLeadingNumeric, ThemeGen.jsParseFloat, hsd] at hnum
            rw [hnum] at hsome
            exact Bool.false_ne_true hsome
          · rw [if_neg ?_] at htw
            · exact htw rfl
            · rw [Bool.not_eq_true] at hc
              rw [hc]
              exact Bool.false_ne_true
    · rename_i hcond
      cases hjs : ThemeGen.jsParseFloatL s.data with
      | some q =>
          exfalso
          rw [ThemeGen.hasLeadingNumeric, ThemeGen.jsParseFloat, hjs] at hnum
          simp at hnum
      | none => rfl

/-- Claim C6, witness: the number `16`, the string `"16px"`, and the
non-numeric string `"abc"`. -/
theorem claim_C6_witness :
    ThemeGen.DesignTokensParser.parseValue (.num 16) = (some 16, "px") ∧
    ThemeGen.DesignTokensParser.parseValue
        (.str (ThemeGen.decimalNumeral ['1', '6'] [] ++ "px")) =
      (some (ThemeGen.numeralVal ['1', '6'] []), "px") ∧
    ThemeGen.DesignTokensParser.parseValue (.str "abc") = (some 0, "px") :=
  ⟨claim_C6_amended.1 16,
   claim_C6_amended.2.1 ['1', '6'] [] "px" (by decide) (by decide) (by decide)
     (by decide) (by decide),
   claim_C6_amended.2.2 "abc" (by decide) (by decide)⟩

/-- The asynchronous-action flag commutes with action parsing: some parsed
action is async exactly when some declared action has type `"async"`. -/
lemma parseActions_any_isAsync (l : List ComponentGen.ComponentAction) :
    (ComponentGen.ComponentSpecParser.parseActions l).any (fun a => a.isAsync) =
      l.any (fun a => a.type == "async") := by
  induction l with
  | nil => rfl
  | cons a t ih =>
      show ((a.type == "async") ||
          (ComponentGen.ComponentSpecParser.parseActions t).any (fun x => x.isAsync)) =
        ((a.type == "async") || t.any (fun x => x.type == "async"))
      rw [ih]

/-- Splitting the Swift component generator's line list around the
initializer branch. -/
lemma generateLines_split (c : ComponentGen.ParsedComponent) (src ts : String) :
    ComponentGen.SwiftComponentGenerator.generateLines c src ts =
      ComponentGen.SwiftComponentGenerator.linesBeforeInit c src ts ++
      ((if c.hasAsyncAction then
          [ ComponentGen.SwiftComponentGenerator.generateAsyncInitializer c, ""
          , ComponentGen.SwiftComponentGenerator.generateSyncInitializer c, "" ]
        else [ ComponentGen.SwiftComponentGenerator.generateInitializer c, "" ]) ++
       ComponentGen.SwiftComponentGenerator.linesAfterInit c) := by
  simp [ComponentGen.SwiftComponentGenerator.generateLines,
    ComponentGen.SwiftComponentGenerator.linesBeforeInit,
    ComponentGen.SwiftComponentGenerator.linesAfterInit, List.append_assoc]

/-- Claim C7: the parsed component's `hasAsyncAction` flag is true exactly
when some declared action has type `"async"`; with it set the generated
line list carries both the async-accepting and the sync-accepting
initializer variants, and without it the single plain initializer. -/
theorem claim_C7_async_initializers (spec : ComponentGen.ComponentSpec)
    (src ts : String) :
    (ComponentGen.ComponentSpecParser.parse spec).hasAsyncAction =
      (spec.actions.getD []).any (fun a => a.type == "async") ∧
    ((ComponentGen.ComponentSpecParser.parse spec).hasAsyncAction = true →
      ∃ pre post, ComponentGen.SwiftComponentGenerator.generateLines
          (ComponentGen.ComponentSpecParser.parse spec) src ts =
        pre ++ ([ ComponentGen.SwiftComponentGenerator.generateAsyncInitializer
                    (ComponentGen.ComponentSpecParser.parse spec), ""
                , ComponentGen.SwiftComponentGenerator.generateSyncInitializer
                    (ComponentGen.ComponentSpecParser.parse spec), "" ] ++ post)) ∧
    ((ComponentGen.ComponentSpecParser.parse spec).hasAsyncAction = false →
      ∃ pre post, ComponentGen.SwiftComponentGenerator.generateLines
          (ComponentGen.ComponentSpecParser.parse spec) src ts =
        pre ++ ([ ComponentGen.SwiftComponentGenerator.generateInitializer
                    (ComponentGen.ComponentSpecParser.parse spec), "" ] ++ post)) := by
  refine ⟨?_, ?_, ?_⟩
  · exact parseActions_any_isAsync (spec.actions.getD [])
  · intro h
    refine ⟨ComponentGen.SwiftComponentGenerator.linesBeforeInit
        (ComponentGen.ComponentSpecParser.parse spec) src ts,
      ComponentGen.SwiftComponentGenerator.linesAfterInit
        (ComponentGen.ComponentSpecParser.parse spec), ?_⟩
    rw [generateLines_split, h]
    simp
  · intro h
    refine ⟨ComponentGen.SwiftComponentGenerator.linesBeforeInit
        (ComponentGen.ComponentSpecParser.parse spec) src ts,
      ComponentGen.SwiftComponentGenerator.linesAfterInit
        (ComponentGen.ComponentSpecParser.parse spec), ?_⟩
    rw [generateLines_split, h]
    simp

/-- Claim C7, witness: the async-action demo spec receives both initializer
variants; the sync-action demo spec receives the single initializer. -/
theorem claim_C7_witness :
    (∃ pre post, ComponentGen.SwiftComponentGenerator.generateLines
        (ComponentGen.ComponentSpecParser.parse demoAsyncSpec) "save-button.json"
          "2025-01-01" =
      pre ++ ([ ComponentGen.SwiftComponentGenerator.generateAsyncInitializer
                  (ComponentGen.ComponentSpecParser.parse demoAsyncSpec), ""
              , ComponentGen.SwiftComponentGenerator.generateSyncInitializer
                  (ComponentGen.ComponentSpecParser.parse demoAsyncSpec), "" ] ++ post)) ∧
    (∃ pre post, ComponentGen.SwiftComponentGenerator.generateLines
        (ComponentGen.ComponentSpecParser.parse demoSyncSpec) "close-button.json"
          "2025-01-01" =
      pre ++ ([ ComponentGen.SwiftComponentGenerator.generateInitializer
                  (ComponentGen.ComponentSpecParser.parse demoSyncSpec), "" ] ++ post)) :=
  ⟨(claim_C7_async_initializers demoAsyncSpec "save-button.json" "2025-01-01").2.1
     (by decide),
   (claim_C7_async_initializers demoSyncSpec "close-button.json" "2025-01-01").2.2
     (by decide)⟩

/-- Claim C9: the Kotlin theme generator's output factors as a fixed prefix
and suffix around the timestamp, so two runs on the same theme and source
label differ only in the embedded generation-date line, and a fixed
timestamp gives byte-identical output. -/
theorem claim_C9_deterministic (theme : ThemeGen.ParsedTheme)
    (src t1 t2 : String) :
    ∃ pre post : String,
      ThemeGen.KotlinThemeGenerator.generate theme src t1 = pre ++ t1 ++ post ∧
      ThemeGen.KotlinThemeGenerator.generate theme src t2 = pre ++ t2 ++ post ∧
      (t1 = t2 →
        ThemeGen.KotlinThemeGenerator.generate theme src t1 =
          ThemeGen.KotlinThemeGenerator.generate theme src t2) := by
  obtain ⟨rest, hrest⟩ : ∃ rest,
      ThemeGen.KotlinThemeGenerator.generateBodyLines theme src =
        "import androidx.compose.ui.graphics.Color" :: rest := by
    unfold ThemeGen.KotlinThemeGenerator.generateBodyLines
    exact ⟨_, rfl⟩
  refine ⟨"// Generated by cuppa-cli from " ++ src ++ "\n" ++ "// Generation date: ",
    "\n" ++ "// DO NOT EDIT MANUALLY - Changes will be overwritten" ++ "\n" ++ "" ++
      "\n" ++ joinNL (ThemeGen.KotlinThemeGenerator.generateBodyLines theme src),
    ?_, ?_, ?_⟩
  · unfold ThemeGen.KotlinThemeGenerator.generate
      ThemeGen.KotlinThemeGenerator.createHeader
      ThemeGen.KotlinThemeGenerator.createHeaderLines
    rw [hrest]
    simp only [joinNL, String.append_assoc]
  · unfold ThemeGen.KotlinThemeGenerator.generate
      ThemeGen.KotlinThemeGenerator.createHeader
      ThemeGen.KotlinThemeGenerator.createHeaderLines
    rw [hrest]
    simp only [joinNL, String.append_assoc]
  · intro h
    rw [h]

/-- Claim C9, witness at the demo theme and two distinct timestamps. -/
theorem claim_C9_witness :
    ∃ pre post : String,
      ThemeGen.KotlinThemeGenerator.generate demoTheme "tokens.json" "2025-01-01" =
        pre ++ "2025-01-01" ++ post ∧
      ThemeGen.KotlinThemeGenerator.generate demoTheme "tokens.json" "2025-02-02" =
        pre ++ "2025-02-02" ++ post ∧
      ("2025-01-01" = "2025-02-02" →
        ThemeGen.KotlinThemeGenerator.generate demoTheme "tokens.json" "2025-01-01" =
          ThemeGen.KotlinThemeGenerator.generate demoTheme "tokens.json" "2025-02-02") :=
  claim_C9_deterministic demoTheme "tokens.json" "2025-01-01" "2025-02-02"

end Cuppa
